import Mathlib

/-!
The Linux adapter of go-keytar (`keytar_linux.go`).

A shallow embedding of the gnome-keyring adapter: the three cgo helper
functions `addPassword`, `getPassword`, `deletePassword` and the three Go
methods `AddPassword`, `GetPassword`, `DeletePassword` of `keychainLinux`.

Conventions of the embedding.

* A Go `string` is its byte sequence.
* A `char *` is modelled by the bytes found in memory from the address it
  points at (`CBlock`); the C string it denotes is the part before the first
  NUL byte (`cstr`).
* The C library and libgnome-keyring are external to the repository.  They
  are taken as a record of functions (`Env`) over an arbitrary store state, so
  that the theorems about the adapter hold for every behaviour of the native
  layer.  Every call into libgnome-keyring is appended to a log kept beside the
  store (`World`).
-/

namespace Keytar

/-! ## Bytes, Go strings and C strings -/

/-- One octet. -/
abbrev Byte := Fin 256

/-- Go `string`: an immutable, arbitrary sequence of bytes. -/
abbrev GoStr := List Byte

/-- What is read from memory, byte after byte, starting at the target of a
`char *`. -/
abbrev CBlock := List Byte

/-- The C string denoted by a `char *`: the bytes before the first NUL. -/
def cstr (p : CBlock) : List Byte := p.takeWhile (fun b => b != 0)

/-- The bytes of an ASCII literal of the source text. -/
def lit (s : String) : List Byte := s.toList.map (fun c => Fin.ofNat c.toNat)

namespace C

/-- Go `C.CString`: a fresh malloc block holding the bytes of the Go string
followed by a NUL terminator. -/
def CString (s : GoStr) : CBlock := s ++ [0]

/-- Go `C.GoString`: the Go string made of the bytes of a C string. -/
def GoString (p : CBlock) : GoStr := cstr p

/-- C `strlen`. -/
def strlen (p : CBlock) : Nat := (cstr p).length

/-- C `malloc(n)` followed by `strcpy(dst, src)`: the destination then holds
the source string and its terminator (`n` is `strlen(src) + 1` in the source,
exactly the room needed). -/
def strcpy (src : CBlock) : CBlock := cstr src ++ [0]

end C

/-- Go `fmt.Sprintf("%s@%s", service, account)`: the bytes of both strings,
verbatim, around an at sign. -/
def Sprintf (service account : GoStr) : GoStr := service ++ lit "@" ++ account

/-! ## The validator

`isValidNonNullUTF8` is declared in a file of the package that is not part of
the Linux adapter.  -/

/-- Decoder state of the UTF-8 check: at a character boundary, or inside a
character with the range allowed for the next byte and the number of
continuation bytes that follow it. -/
inductive Utf8State
  | boundary
  | inside (lo hi : Nat) (more : Nat)
  deriving DecidableEq, Repr

/-- Modelled from the spec: one step of the "valid Unicode text" check of the
validator (the UTF-8 well-formedness table: no overlong form, no surrogate,
nothing above U+10FFFF). -/
def utf8Step : Utf8State → Byte → Option Utf8State
  | .boundary, b =>
    if b.val < 0x80 then some .boundary
    else if 0xC2 ≤ b.val ∧ b.val ≤ 0xDF then some (.inside 0x80 0xBF 0)
    else if b.val = 0xE0 then some (.inside 0xA0 0xBF 1)
    else if b.val = 0xED then some (.inside 0x80 0x9F 1)
    else if 0xE1 ≤ b.val ∧ b.val ≤ 0xEF then some (.inside 0x80 0xBF 1)
    else if b.val = 0xF0 then some (.inside 0x90 0xBF 2)
    else if 0xF1 ≤ b.val ∧ b.val ≤ 0xF3 then some (.inside 0x80 0xBF 2)
    else if b.val = 0xF4 then some (.inside 0x80 0x8F 2)
    else none
  | .inside lo hi more, b =>
    if lo ≤ b.val ∧ b.val ≤ hi then
      match more with
      | 0 => some .boundary
      | n + 1 => some (.inside 0x80 0xBF n)
    else none

/-- Modelled from the spec: run of the UTF-8 check over the bytes of a
string, from a given decoder state. -/
def utf8From : Utf8State → List Byte → Bool
  | st, [] => decide (st = .boundary)
  | st, b :: rest =>
    match utf8Step st b with
    | some st1 => utf8From st1 rest
    | none => false

/-- Modelled from the spec: the validator `isValidNonNullUTF8` of the package
(declared outside the Linux adapter).  A string is accepted when it is not
empty, is valid UTF-8 text and holds no NUL byte. -/
def isValidNonNullUTF8 (s : GoStr) : Bool :=
  !s.isEmpty && utf8From .boundary s && !s.contains 0

/-! ## The error values of the package -/

/-- The three error values of the package (`ErrNotFound`, `ErrInvalidValue`,
`ErrUnknown`); a Go `error` is `Option KeytarError`, `none` standing for
`nil`. -/
inductive KeytarError
  | ErrNotFound
  | ErrInvalidValue
  | ErrUnknown
  deriving DecidableEq, Repr

open KeytarError

/-! ## libgnome-keyring, as seen by the adapter -/

/-- Result codes of libgnome-keyring (`GnomeKeyringResult`). -/
inductive GnomeKeyringResult
  | GNOME_KEYRING_RESULT_OK
  | GNOME_KEYRING_RESULT_DENIED
  | GNOME_KEYRING_RESULT_NO_KEYRING_DAEMON
  | GNOME_KEYRING_RESULT_ALREADY_UNLOCKED
  | GNOME_KEYRING_RESULT_NO_SUCH_KEYRING
  | GNOME_KEYRING_RESULT_BAD_ARGUMENTS
  | GNOME_KEYRING_RESULT_IO_ERROR
  | GNOME_KEYRING_RESULT_CANCELLED
  | GNOME_KEYRING_RESULT_KEYRING_ALREADY_EXISTS
  | GNOME_KEYRING_RESULT_NO_MATCH
  deriving DecidableEq, Repr

/-- Item types of libgnome-keyring (`GnomeKeyringItemType`). -/
inductive GnomeKeyringItemType
  | GNOME_KEYRING_ITEM_GENERIC_SECRET
  | GNOME_KEYRING_ITEM_NETWORK_PASSWORD
  | GNOME_KEYRING_ITEM_NOTE
  | GNOME_KEYRING_ITEM_CHAINED_KEYRING_PASSWORD
  | GNOME_KEYRING_ITEM_ENCRYPTION_KEY_PASSWORD
  | GNOME_KEYRING_ITEM_PK_STORAGE
  deriving DecidableEq, Repr

open GnomeKeyringResult GnomeKeyringItemType

/-- One string attribute of an item: the attribute list keeps its own copies
of the name and of the value, both C strings. -/
structure GnomeKeyringAttribute where
  name : List Byte
  value : List Byte
  deriving DecidableEq, Repr

/-- The ordered attribute list handed to create and search requests. -/
abbrev GnomeKeyringAttributeList := List GnomeKeyringAttribute

/-- One search match (`GnomeKeyringFound`): the fields the adapter reads are
`item_id` and `secret`, the latter a `char *`. -/
structure GnomeKeyringFound where
  keyring : CBlock
  item_id : Nat
  attributes : GnomeKeyringAttributeList
  secret : CBlock
  deriving DecidableEq, Repr

/-- A request received by libgnome-keyring, with the arguments it was given
(`keyring` is `none` for a NULL pointer, the default keyring). -/
inductive NativeCall
  | item_create (keyring : Option CBlock) (type : GnomeKeyringItemType)
      (display_name : CBlock) (attributes : GnomeKeyringAttributeList)
      (secret : CBlock) (update_if_exists : Bool)
  | find_items (type : GnomeKeyringItemType) (attributes : GnomeKeyringAttributeList)
  | item_delete (keyring : Option CBlock) (id : Nat)
  deriving DecidableEq, Repr

/-- The code outside the repository that the adapter calls, over a store
state `σ`.

* `free p` is what is read through `p` once the block it points at has been
  handed to C `free`: the C standard leaves it open, an allocator may keep the
  bytes or write over them.
* the three libgnome-keyring requests take the store state and answer with a
  result code (and the new store state, the id of the created item, the list of
  matches).  A search does not change the store. -/
structure Env (σ : Type) where
  free : CBlock → CBlock
  gnome_keyring_item_create_sync :
    σ → Option CBlock → GnomeKeyringItemType → CBlock → GnomeKeyringAttributeList →
      CBlock → Bool → σ × GnomeKeyringResult × Nat
  gnome_keyring_find_items_sync :
    σ → GnomeKeyringItemType → GnomeKeyringAttributeList →
      GnomeKeyringResult × List GnomeKeyringFound
  gnome_keyring_item_delete_sync : σ → Option CBlock → Nat → σ × GnomeKeyringResult

/-- The native store together with the log of the requests it has received,
oldest first. -/
structure World (σ : Type) where
  store : σ
  calls : List NativeCall

/-! ## The cgo helpers (lines 21 to 161) -/

/-- C `createAttributes` (lines 21 to 34): a new list to which the string
attributes `service` and `account` are appended, in this order. -/
def createAttributes (service account : CBlock) : GnomeKeyringAttributeList :=
  let result : GnomeKeyringAttributeList := []
  let result := result ++ [⟨lit "service", cstr service⟩]
  let result := result ++ [⟨lit "account", cstr account⟩]
  result

/-- C `addPassword` (lines 43 to 77): one create request on the default
keyring, update-if-exists FALSE; `-1` unless the result is OK. -/
def addPassword {σ : Type} (E : Env σ) (w : World σ)
    (displayName service account password : CBlock) : World σ × Int :=
  let attributes := createAttributes service account
  let r := E.gnome_keyring_item_create_sync w.store none
    GNOME_KEYRING_ITEM_GENERIC_SECRET displayName attributes password false
  let w1 : World σ :=
    ⟨r.1, w.calls ++ [.item_create none GNOME_KEYRING_ITEM_GENERIC_SECRET displayName
      attributes password false]⟩
  let result := r.2.1
  if result ≠ GNOME_KEYRING_RESULT_OK then (w1, -1) else (w1, 0)

/-- C `getPassword` (lines 82 to 117): one search request; `-1` with the out
parameter untouched when the search fails or has no match, else `0` with a
fresh copy of the secret of the first match. -/
def getPassword {σ : Type} (E : Env σ) (w : World σ)
    (service account : CBlock) : World σ × Int × Option CBlock :=
  let attributes := createAttributes service account
  let r := E.gnome_keyring_find_items_sync w.store GNOME_KEYRING_ITEM_GENERIC_SECRET attributes
  let w1 : World σ :=
    ⟨w.store, w.calls ++ [.find_items GNOME_KEYRING_ITEM_GENERIC_SECRET attributes]⟩
  let result := r.1
  let matches_ := r.2
  if result ≠ GNOME_KEYRING_RESULT_OK ∨ matches_.length = 0 then (w1, -1, none)
  else
    match matches_ with
    | [] => (w1, -1, none)
    | found :: _ =>
      let secret := found.secret
      (w1, 0, some (C.strcpy secret))

/-- C `deletePassword` (lines 121 to 161): one search request; `-1` when the
search fails or has no match; else one delete request for the id of the first
match, `-1` unless its result is OK. -/
def deletePassword {σ : Type} (E : Env σ) (w : World σ)
    (service account : CBlock) : World σ × Int :=
  let attributes := createAttributes service account
  let r := E.gnome_keyring_find_items_sync w.store GNOME_KEYRING_ITEM_GENERIC_SECRET attributes
  let w1 : World σ :=
    ⟨w.store, w.calls ++ [.find_items GNOME_KEYRING_ITEM_GENERIC_SECRET attributes]⟩
  let result := r.1
  let matches_ := r.2
  if result ≠ GNOME_KEYRING_RESULT_OK ∨ matches_.length = 0 then (w1, -1)
  else
    match matches_ with
    | [] => (w1, -1)
    | found :: _ =>
      let item := found.item_id
      let d := E.gnome_keyring_item_delete_sync w1.store none item
      let w2 : World σ := ⟨d.1, w1.calls ++ [.item_delete none item]⟩
      let result := d.2
      if result ≠ GNOME_KEYRING_RESULT_OK then (w2, -1) else (w2, 0)

/-! ## The Go methods (lines 174 to 254) -/

namespace keychainLinux

/-- Go `AddPassword` (lines 174 to 203).  The copies of the display name, of
the service and of the account are released by deferred calls, that is after
the result is known; the copy of the password is released at line 194, before
the call of line 197 reads it. -/
def AddPassword {σ : Type} (E : Env σ) (w : World σ)
    (service account password : GoStr) : World σ × Option KeytarError :=
  let serviceValid := isValidNonNullUTF8 service
  let accountValid := isValidNonNullUTF8 account
  let passwordValid := isValidNonNullUTF8 password
  if !(serviceValid && accountValid && passwordValid) then (w, some ErrInvalidValue)
  else
    let display := Sprintf service account
    let displayCStr := C.CString display
    let serviceCStr := C.CString service
    let accountCStr := C.CString account
    let passwordCStr := C.CString password
    let passwordCStr := E.free passwordCStr
    let r := addPassword E w displayCStr serviceCStr accountCStr passwordCStr
    if r.2 < 0 then (r.1, some ErrUnknown) else (r.1, none)

/-- Go `GetPassword` (lines 205 to 231). -/
def GetPassword {σ : Type} (E : Env σ) (w : World σ)
    (service account : GoStr) : World σ × GoStr × Option KeytarError :=
  let serviceValid := isValidNonNullUTF8 service
  let accountValid := isValidNonNullUTF8 account
  if !(serviceValid && accountValid) then (w, [], some ErrInvalidValue)
  else
    let serviceCStr := C.CString service
    let accountCStr := C.CString account
    let r := getPassword E w serviceCStr accountCStr
    if r.2.1 < 0 then (r.1, [], some ErrNotFound)
    else
      match r.2.2 with
      | some passwordCStr => (r.1, C.GoString passwordCStr, none)
      | none => (r.1, C.GoString [], none)

/-- Go `DeletePassword` (lines 233 to 254). -/
def DeletePassword {σ : Type} (E : Env σ) (w : World σ)
    (service account : GoStr) : World σ × Option KeytarError :=
  let serviceValid := isValidNonNullUTF8 service
  let accountValid := isValidNonNullUTF8 account
  if !(serviceValid && accountValid) then (w, some ErrInvalidValue)
  else
    let serviceCStr := C.CString service
    let accountCStr := C.CString account
    let r := deletePassword E w serviceCStr accountCStr
    if r.2 < 0 then (r.1, some ErrUnknown) else (r.1, none)

end keychainLinux

/-! ## A reference keyring

The daemon behind libgnome-keyring is not part of the repository.  The
statements that speak of what the store holds after a sequence of operations
are made over the following executable model of one keyring, written after the
library's interface documentation: an item is created with a fresh id, a
create request with update-if-exists FALSE always makes a new item, a search
lists the items of the given type that carry every searched attribute, and a
delete request removes the item with the given id.  The order in which a
search lists its matches is the store's own business: it is a parameter. -/

/-- One stored item. -/
structure Item where
  item_id : Nat
  type : GnomeKeyringItemType
  display_name : List Byte
  attributes : GnomeKeyringAttributeList
  secret : List Byte
  deriving DecidableEq, Repr

/-- One keyring: `status` is the result the daemon answers every request with
when it cannot serve it (`GNOME_KEYRING_RESULT_OK` when it can), `name` the
name of the keyring, `items` its items in creation order. -/
structure Keyring where
  status : GnomeKeyringResult
  name : List Byte
  items : List Item
  deriving DecidableEq, Repr

namespace Keyring

/-- An id no item of the keyring has. -/
def freshId (k : Keyring) : Nat := (k.items.map (fun it => it.item_id)).foldr max 0 + 1

/-- Whether a request names this keyring (NULL is the default keyring). -/
def named (k : Keyring) (keyring : Option CBlock) : Bool :=
  match keyring with
  | none => true
  | some p => cstr p == k.name

/-- Whether an item is matched by a search: same type, and every searched
attribute is one of the item's, with an equal value. -/
def hit (type : GnomeKeyringItemType) (attributes : GnomeKeyringAttributeList)
    (it : Item) : Bool :=
  it.type == type && attributes.all (fun a => it.attributes.contains a)

/-- Whether an item is the one an updating create request replaces: same type
and same attributes. -/
def same (type : GnomeKeyringItemType) (attributes : GnomeKeyringAttributeList)
    (it : Item) : Bool :=
  it.type == type && it.attributes == attributes

/-- The match reported for an item. -/
def toFound (k : Keyring) (it : Item) : GnomeKeyringFound :=
  ⟨k.name ++ [0], it.item_id, it.attributes, it.secret ++ [0]⟩

/-- Replace display name and secret of the first item for which `f` holds. -/
def updateFirst (f : Item → Bool) (display_name secret : List Byte) : List Item → List Item
  | [] => []
  | it :: rest =>
    if f it then { it with display_name := display_name, secret := secret } :: rest
    else it :: updateFirst f display_name secret rest

/-- The create request (`gnome_keyring_item_create_sync`). -/
def item_create_sync (k : Keyring) (keyring : Option CBlock) (type : GnomeKeyringItemType)
    (display_name : CBlock) (attributes : GnomeKeyringAttributeList) (secret : CBlock)
    (update_if_exists : Bool) : Keyring × GnomeKeyringResult × Nat :=
  if k.status ≠ GNOME_KEYRING_RESULT_OK then (k, k.status, 0)
  else if !k.named keyring then (k, GNOME_KEYRING_RESULT_NO_SUCH_KEYRING, 0)
  else
    match (if update_if_exists then k.items.find? (same type attributes) else none) with
    | some old =>
      ({ k with items := updateFirst (same type attributes) (cstr display_name) (cstr secret)
                  k.items },
        GNOME_KEYRING_RESULT_OK, old.item_id)
    | none =>
      ({ k with items := k.items ++
                  [⟨k.freshId, type, cstr display_name, attributes, cstr secret⟩] },
        GNOME_KEYRING_RESULT_OK, k.freshId)

/-- The search request (`gnome_keyring_find_items_sync`); `order` is the order
in which the store lists its matches. -/
def find_items_sync (order : List GnomeKeyringFound → List GnomeKeyringFound) (k : Keyring)
    (type : GnomeKeyringItemType) (attributes : GnomeKeyringAttributeList) :
    GnomeKeyringResult × List GnomeKeyringFound :=
  if k.status ≠ GNOME_KEYRING_RESULT_OK then (k.status, [])
  else
    let found := order ((k.items.filter (hit type attributes)).map k.toFound)
    if found.isEmpty then (GNOME_KEYRING_RESULT_NO_MATCH, [])
    else (GNOME_KEYRING_RESULT_OK, found)

/-- The delete request (`gnome_keyring_item_delete_sync`). -/
def item_delete_sync (k : Keyring) (keyring : Option CBlock) (id : Nat) :
    Keyring × GnomeKeyringResult :=
  if k.status ≠ GNOME_KEYRING_RESULT_OK then (k, k.status)
  else if !k.named keyring then (k, GNOME_KEYRING_RESULT_NO_SUCH_KEYRING)
  else if k.items.any (fun it => it.item_id == id) then
    ({ k with items := k.items.filter (fun it => it.item_id != id) }, GNOME_KEYRING_RESULT_OK)
  else (k, GNOME_KEYRING_RESULT_BAD_ARGUMENTS)

/-- The items of the keyring that a search for the pair `(service, account)`
matches, in creation order. -/
def pairItems (k : Keyring) (service account : GoStr) : List Item :=
  k.items.filter
    (hit GNOME_KEYRING_ITEM_GENERIC_SECRET
      (createAttributes (C.CString service) (C.CString account)))

/-- The item a create request of `AddPassword` for `(service, account,
password)` adds to the keyring, `free` being the allocator behaviour: its secret
is the C string read through the password pointer at the time of the call. -/
def added (k : Keyring) (free : CBlock → CBlock) (service account password : GoStr) : Item :=
  ⟨k.freshId, GNOME_KEYRING_ITEM_GENERIC_SECRET, cstr (C.CString (Sprintf service account)),
    [⟨lit "service", service⟩, ⟨lit "account", account⟩], cstr (free (C.CString password))⟩

/-- The keyring with one more item, last in creation order. -/
def withItem (k : Keyring) (it : Item) : Keyring := { k with items := k.items ++ [it] }

/-- The keyring without the items that have the given id. -/
def withoutId (k : Keyring) (id : Nat) : Keyring :=
  { k with items := k.items.filter (fun it => it.item_id != id) }

/-- An empty, reachable keyring named `login`. -/
def empty : Keyring := ⟨GNOME_KEYRING_RESULT_OK, lit "login", []⟩

end Keyring

/-- The native layer made of the reference keyring, an allocator behaviour
`free` and a listing order `order`. -/
def gnomeKeyring (free : CBlock → CBlock)
    (order : List GnomeKeyringFound → List GnomeKeyringFound) : Env Keyring where
  free := free
  gnome_keyring_item_create_sync := Keyring.item_create_sync
  gnome_keyring_find_items_sync := Keyring.find_items_sync order
  gnome_keyring_item_delete_sync := Keyring.item_delete_sync

/-- An allocator that leaves the bytes of a released block as they were. -/
def keepingFree : CBlock → CBlock := fun p => p

/-- An allocator that, like the free lists of common malloc implementations,
stores its link to the next free block in the first eight bytes of a released
block (a null link when the list was empty). -/
def linkingFree : CBlock → CBlock :=
  fun p => List.replicate (min 8 p.length) 0 ++ p.drop 8

/-- Listing order: oldest item first. -/
def oldestFirst : List GnomeKeyringFound → List GnomeKeyringFound := fun l => l

/-- Listing order: newest item first. -/
def newestFirst : List GnomeKeyringFound → List GnomeKeyringFound := fun l => l.reverse

/-! ## Concrete inputs used to exercise the statements -/

/-- The service of the scenario of the specification. -/
def mail : GoStr := lit "mail"

/-- The account of the scenario of the specification. -/
def alice : GoStr := lit "alice@example.com"

/-- The password of the scenario of the specification. -/
def s3cr3t : GoStr := lit "s3cr3t"

/-- An earlier password for the same pair. -/
def hunter2 : GoStr := lit "hunter2"

/-- A string with an embedded NUL byte. -/
def withNul : GoStr := [0x61, 0, 0x62]

/-- The reference keyring with an allocator that keeps released bytes and a
search that lists the oldest item first. -/
def keepingOldest : Env Keyring := gnomeKeyring keepingFree oldestFirst

/-- The reference keyring with an allocator that keeps released bytes and a
search that lists the newest item first. -/
def keepingNewest : Env Keyring := gnomeKeyring keepingFree newestFirst

/-- The reference keyring with an allocator that links released blocks and a
search that lists the oldest item first. -/
def linkingOldest : Env Keyring := gnomeKeyring linkingFree oldestFirst

/-- The empty keyring, nothing requested yet. -/
def freshWorld : World Keyring := ⟨Keyring.empty, []⟩

/-- A keyring that already holds two generic secrets for the pair of the
scenario, nothing requested yet. -/
def twoItemWorld : World Keyring :=
  ⟨⟨GNOME_KEYRING_RESULT_OK, lit "login",
      [⟨1, GNOME_KEYRING_ITEM_GENERIC_SECRET, lit "mail@alice@example.com",
          [⟨lit "service", mail⟩, ⟨lit "account", alice⟩], hunter2⟩,
       ⟨2, GNOME_KEYRING_ITEM_GENERIC_SECRET, lit "mail@alice@example.com",
          [⟨lit "service", mail⟩, ⟨lit "account", alice⟩], s3cr3t⟩]⟩, []⟩

/-- A keyring that already holds one generic secret for the pair of the
scenario, nothing requested yet. -/
def oneItemWorld : World Keyring :=
  ⟨⟨GNOME_KEYRING_RESULT_OK, lit "login",
      [⟨1, GNOME_KEYRING_ITEM_GENERIC_SECRET, lit "mail@alice@example.com",
          [⟨lit "service", mail⟩, ⟨lit "account", alice⟩], hunter2⟩]⟩, []⟩

/-- The item of `oneItemWorld`. -/
def hunterItem : Item :=
  ⟨1, GNOME_KEYRING_ITEM_GENERIC_SECRET, lit "mail@alice@example.com",
    [⟨lit "service", mail⟩, ⟨lit "account", alice⟩], hunter2⟩

/-- Another valid password. -/
def swordfish : GoStr := lit "swordfish"

/-- The match the reference keyring reports for the older item of
`twoItemWorld`. -/
def olderFound : GnomeKeyringFound :=
  ⟨lit "login" ++ [0], 1, [⟨lit "service", mail⟩, ⟨lit "account", alice⟩], hunter2 ++ [0]⟩

/-- The match the reference keyring reports for the newer item of
`twoItemWorld`. -/
def newerFound : GnomeKeyringFound :=
  ⟨lit "login" ++ [0], 2, [⟨lit "service", mail⟩, ⟨lit "account", alice⟩], s3cr3t ++ [0]⟩

/-! ## Basic facts on strings -/

open keychainLinux

/-- A byte list without NUL is read back whole from its terminated copy. -/
theorem cstr_append_nul (s : List Byte) (h : ∀ b ∈ s, b ≠ 0) : cstr (s ++ [0]) = s := by
  induction s with
  | nil => simp [cstr]
  | cons x xs ih =>
    have hx : x ≠ 0 := h x (List.mem_cons_self _ _)
    have hxs : ∀ b ∈ xs, b ≠ 0 := fun b hb => h b (List.mem_cons_of_mem _ hb)
    have ih1 := ih hxs
    have hb : (x != 0) = true := by simpa using hx
    simp only [cstr] at ih1 ⊢
    rw [List.cons_append, List.takeWhile_cons, hb]
    simp [ih1]

/-- The bytes of a C string are not NUL. -/
theorem cstr_no_nul (p : CBlock) : ∀ b ∈ cstr p, b ≠ 0 := by
  intro b hb
  have := List.mem_takeWhile_imp hb
  simpa using this

/-- Copying a C string with `strcpy` and reading the copy gives the string. -/
theorem GoString_strcpy (p : CBlock) : C.GoString (C.strcpy p) = cstr p := by
  simp only [C.GoString, C.strcpy]
  exact cstr_append_nul _ (cstr_no_nul p)

/-- An accepted string holds no NUL byte. -/
theorem valid_no_nul (s : GoStr) (h : isValidNonNullUTF8 s = true) : ∀ b ∈ s, b ≠ 0 := by
  intro b hb hb0
  subst hb0
  simp [isValidNonNullUTF8] at h
  exact h.2 hb

/-- The C copy of an accepted string denotes that string. -/
theorem cstr_CString (s : GoStr) (h : isValidNonNullUTF8 s = true) :
    cstr (C.CString s) = s :=
  cstr_append_nul s (valid_no_nul s h)

/-- The attribute list built from the C copies of an accepted pair. -/
theorem createAttributes_valid (service account : GoStr)
    (hs : isValidNonNullUTF8 service = true) (ha : isValidNonNullUTF8 account = true) :
    createAttributes (C.CString service) (C.CString account)
      = [⟨lit "service", service⟩, ⟨lit "account", account⟩] := by
  simp [createAttributes, cstr_CString, hs, ha]

/-! ## What each method does on accepted arguments, for every native layer -/

/-- The create request the C helper issues, and its translation of the result. -/
theorem addPassword_eq {σ : Type} (E : Env σ) (w : World σ)
    (displayName service account password : CBlock) :
    addPassword E w displayName service account password =
      (⟨(E.gnome_keyring_item_create_sync w.store none GNOME_KEYRING_ITEM_GENERIC_SECRET
            displayName (createAttributes service account) password false).1,
        w.calls ++ [.item_create none GNOME_KEYRING_ITEM_GENERIC_SECRET displayName
            (createAttributes service account) password false]⟩,
       if (E.gnome_keyring_item_create_sync w.store none GNOME_KEYRING_ITEM_GENERIC_SECRET
            displayName (createAttributes service account) password false).2.1
          = GNOME_KEYRING_RESULT_OK then 0 else -1) := by
  simp only [addPassword]
  split <;> simp_all

/-- The whole of `AddPassword` on accepted arguments. -/
theorem AddPassword_valid {σ : Type} (E : Env σ) (w : World σ)
    (service account password : GoStr)
    (hs : isValidNonNullUTF8 service = true) (ha : isValidNonNullUTF8 account = true)
    (hp : isValidNonNullUTF8 password = true) :
    AddPassword E w service account password =
      (⟨(E.gnome_keyring_item_create_sync w.store none GNOME_KEYRING_ITEM_GENERIC_SECRET
            (C.CString (Sprintf service account))
            [⟨lit "service", service⟩, ⟨lit "account", account⟩]
            (E.free (C.CString password)) false).1,
        w.calls ++ [.item_create none GNOME_KEYRING_ITEM_GENERIC_SECRET
            (C.CString (Sprintf service account))
            [⟨lit "service", service⟩, ⟨lit "account", account⟩]
            (E.free (C.CString password)) false]⟩,
       if (E.gnome_keyring_item_create_sync w.store none GNOME_KEYRING_ITEM_GENERIC_SECRET
            (C.CString (Sprintf service account))
            [⟨lit "service", service⟩, ⟨lit "account", account⟩]
            (E.free (C.CString password)) false).2.1 = GNOME_KEYRING_RESULT_OK
       then none else some ErrUnknown) := by
  simp only [AddPassword, hs, ha, hp, addPassword_eq, createAttributes_valid service account hs ha]
  by_cases hr : (E.gnome_keyring_item_create_sync w.store none GNOME_KEYRING_ITEM_GENERIC_SECRET
      (C.CString (Sprintf service account))
      [⟨lit "service", service⟩, ⟨lit "account", account⟩]
      (E.free (C.CString password)) false).2.1 = GNOME_KEYRING_RESULT_OK
  · simp [hr]
  · simp [hr]

/-- The whole of `GetPassword` on an accepted pair. -/
theorem GetPassword_valid {σ : Type} (E : Env σ) (w : World σ) (service account : GoStr)
    (hs : isValidNonNullUTF8 service = true) (ha : isValidNonNullUTF8 account = true) :
    GetPassword E w service account =
      (⟨w.store, w.calls ++ [.find_items GNOME_KEYRING_ITEM_GENERIC_SECRET
          [⟨lit "service", service⟩, ⟨lit "account", account⟩]]⟩,
       match E.gnome_keyring_find_items_sync w.store GNOME_KEYRING_ITEM_GENERIC_SECRET
          [⟨lit "service", service⟩, ⟨lit "account", account⟩] with
       | (GNOME_KEYRING_RESULT_OK, found :: _) => (cstr found.secret, none)
       | _ => ([], some ErrNotFound)) := by
  simp only [GetPassword, hs, ha, getPassword, createAttributes_valid service account hs ha]
  rcases hf : E.gnome_keyring_find_items_sync w.store GNOME_KEYRING_ITEM_GENERIC_SECRET
      [⟨lit "service", service⟩, ⟨lit "account", account⟩] with ⟨res, ms⟩
  cases ms with
  | nil => simp
  | cons m rest =>
    by_cases hr : res = GNOME_KEYRING_RESULT_OK
    · subst hr
      simp [GoString_strcpy]
    · simp [hr]

/-- The whole of `DeletePassword` on an accepted pair. -/
theorem DeletePassword_valid {σ : Type} (E : Env σ) (w : World σ) (service account : GoStr)
    (hs : isValidNonNullUTF8 service = true) (ha : isValidNonNullUTF8 account = true) :
    DeletePassword E w service account =
      match E.gnome_keyring_find_items_sync w.store GNOME_KEYRING_ITEM_GENERIC_SECRET
          [⟨lit "service", service⟩, ⟨lit "account", account⟩] with
      | (GNOME_KEYRING_RESULT_OK, found :: _) =>
        (⟨(E.gnome_keyring_item_delete_sync w.store none found.item_id).1,
          w.calls ++ [.find_items GNOME_KEYRING_ITEM_GENERIC_SECRET
            [⟨lit "service", service⟩, ⟨lit "account", account⟩],
            .item_delete none found.item_id]⟩,
         if (E.gnome_keyring_item_delete_sync w.store none found.item_id).2
            = GNOME_KEYRING_RESULT_OK then none else some ErrUnknown)
      | _ =>
        (⟨w.store, w.calls ++ [.find_items GNOME_KEYRING_ITEM_GENERIC_SECRET
            [⟨lit "service", service⟩, ⟨lit "account", account⟩]]⟩, some ErrUnknown) := by
  simp only [DeletePassword, hs, ha, deletePassword, createAttributes_valid service account hs ha]
  rcases hf : E.gnome_keyring_find_items_sync w.store GNOME_KEYRING_ITEM_GENERIC_SECRET
      [⟨lit "service", service⟩, ⟨lit "account", account⟩] with ⟨res, ms⟩
  cases ms with
  | nil => simp
  | cons m rest =>
    by_cases hr : res = GNOME_KEYRING_RESULT_OK
    · subst hr
      by_cases hd : (E.gnome_keyring_item_delete_sync w.store none m.item_id).2
          = GNOME_KEYRING_RESULT_OK
      · simp [hd]
      · simp [hd]
    · simp [hr]

/-! ## The contract of the three methods -/

/-- C1: when the validator rejects an argument, `AddPassword`, `GetPassword`
and `DeletePassword` return `ErrInvalidValue` (`GetPassword` with the empty
password) and leave both the store and the log of native requests as they
were: no call into the native layer is made. -/
theorem invalid_argument_short_circuits {σ : Type} (E : Env σ) (w : World σ)
    (service account password : GoStr) :
    ((isValidNonNullUTF8 service = false ∨ isValidNonNullUTF8 account = false ∨
        isValidNonNullUTF8 password = false) →
      AddPassword E w service account password = (w, some ErrInvalidValue)) ∧
    ((isValidNonNullUTF8 service = false ∨ isValidNonNullUTF8 account = false) →
      GetPassword E w service account = (w, [], some ErrInvalidValue) ∧
      DeletePassword E w service account = (w, some ErrInvalidValue)) := by
  refine ⟨?_, ?_⟩
  · intro h
    have hc : (isValidNonNullUTF8 service && isValidNonNullUTF8 account &&
        isValidNonNullUTF8 password) = false := by
      rcases h with h | h | h <;> simp [h]
    simp [AddPassword, hc]
  · intro h
    have hc : (isValidNonNullUTF8 service && isValidNonNullUTF8 account) = false := by
      rcases h with h | h <;> simp [h]
    constructor
    · simp [GetPassword, hc]
    · simp [DeletePassword, hc]

/-- C1, exercised: an empty service, an account with an embedded NUL and a
truncated UTF-8 sequence as password are rejected, on a keyring that holds
two items. -/
theorem invalid_argument_short_circuits_witness :
    (isValidNonNullUTF8 [] = false ∧ isValidNonNullUTF8 withNul = false ∧
      isValidNonNullUTF8 [0xC3] = false) ∧
    AddPassword keepingOldest twoItemWorld mail alice [0xC3]
      = (twoItemWorld, some ErrInvalidValue) ∧
    GetPassword keepingOldest twoItemWorld [] alice = (twoItemWorld, [], some ErrInvalidValue) ∧
    DeletePassword keepingOldest twoItemWorld mail withNul
      = (twoItemWorld, some ErrInvalidValue) :=
  ⟨by decide,
   (invalid_argument_short_circuits keepingOldest twoItemWorld mail alice [0xC3]).1
      (Or.inr (Or.inr (by decide))),
   ((invalid_argument_short_circuits keepingOldest twoItemWorld [] alice []).2
      (Or.inl (by decide))).1,
   ((invalid_argument_short_circuits keepingOldest twoItemWorld mail withNul []).2
      (Or.inr (by decide))).2⟩

/-- C5: on an accepted pair, when the native search reports a result other
than OK or lists no match, `GetPassword` returns the empty string with
`ErrNotFound`. -/
theorem GetPassword_not_found {σ : Type} (E : Env σ) (w : World σ) (service account : GoStr)
    (hs : isValidNonNullUTF8 service = true) (ha : isValidNonNullUTF8 account = true)
    (h : (E.gnome_keyring_find_items_sync w.store GNOME_KEYRING_ITEM_GENERIC_SECRET
            [⟨lit "service", service⟩, ⟨lit "account", account⟩]).1 ≠ GNOME_KEYRING_RESULT_OK ∨
         (E.gnome_keyring_find_items_sync w.store GNOME_KEYRING_ITEM_GENERIC_SECRET
            [⟨lit "service", service⟩, ⟨lit "account", account⟩]).2 = []) :
    (GetPassword E w service account).2 = ([], some ErrNotFound) := by
  rw [GetPassword_valid E w service account hs ha]
  rcases hf : E.gnome_keyring_find_items_sync w.store GNOME_KEYRING_ITEM_GENERIC_SECRET
      [⟨lit "service", service⟩, ⟨lit "account", account⟩] with ⟨res, ms⟩
  rw [hf] at h
  rcases h with h | h
  · cases ms <;> cases res <;> simp_all
  · simp only at h
    subst h
    cases res <;> rfl

/-- C5, exercised: a search that reports no match (the empty keyring). -/
theorem GetPassword_not_found_witness :
    (isValidNonNullUTF8 mail = true ∧ isValidNonNullUTF8 alice = true) ∧
    (keepingOldest.gnome_keyring_find_items_sync freshWorld.store
        GNOME_KEYRING_ITEM_GENERIC_SECRET
        [⟨lit "service", mail⟩, ⟨lit "account", alice⟩]).1 = GNOME_KEYRING_RESULT_NO_MATCH ∧
    (GetPassword keepingOldest freshWorld mail alice).2 = ([], some ErrNotFound) :=
  ⟨by decide, by decide,
   GetPassword_not_found keepingOldest freshWorld mail alice (by decide) (by decide)
     (Or.inl (by decide))⟩

/-- C6: on an accepted pair, when the native search reports OK with a
non-empty list of matches, `GetPassword` returns the secret of the first
element of the list and no error, whatever the rest of the list. -/
theorem GetPassword_first_match {σ : Type} (E : Env σ) (w : World σ) (service account : GoStr)
    (found : GnomeKeyringFound) (others : List GnomeKeyringFound)
    (hs : isValidNonNullUTF8 service = true) (ha : isValidNonNullUTF8 account = true)
    (h : E.gnome_keyring_find_items_sync w.store GNOME_KEYRING_ITEM_GENERIC_SECRET
            [⟨lit "service", service⟩, ⟨lit "account", account⟩]
          = (GNOME_KEYRING_RESULT_OK, found :: others)) :
    (GetPassword E w service account).2 = (cstr found.secret, none) := by
  rw [GetPassword_valid E w service account hs ha, h]

/-- C6, exercised: two matches, the first one holds `hunter2`. -/
theorem GetPassword_first_match_witness :
    (isValidNonNullUTF8 mail = true ∧ isValidNonNullUTF8 alice = true) ∧
    keepingOldest.gnome_keyring_find_items_sync twoItemWorld.store
        GNOME_KEYRING_ITEM_GENERIC_SECRET [⟨lit "service", mail⟩, ⟨lit "account", alice⟩]
      = (GNOME_KEYRING_RESULT_OK, [olderFound, newerFound]) ∧
    cstr olderFound.secret = hunter2 ∧
    (GetPassword keepingOldest twoItemWorld mail alice).2 = (cstr olderFound.secret, none) :=
  ⟨by decide, by decide, by decide,
   GetPassword_first_match keepingOldest twoItemWorld mail alice olderFound [newerFound]
     (by decide) (by decide) (by decide)⟩

/-- C7: on an accepted pair, when the native search reports a result other
than OK or lists no match, `DeletePassword` returns `ErrUnknown`, the only
native request it makes is the search, and the store is as before; and
whenever `GetPassword` returns `ErrNotFound` for the pair, `DeletePassword`
from the same state returns `ErrUnknown` and leaves the store as it was. -/
theorem DeletePassword_no_match {σ : Type} (E : Env σ) (w : World σ)
    (service account : GoStr)
    (hs : isValidNonNullUTF8 service = true) (ha : isValidNonNullUTF8 account = true) :
    (((E.gnome_keyring_find_items_sync w.store GNOME_KEYRING_ITEM_GENERIC_SECRET
            [⟨lit "service", service⟩, ⟨lit "account", account⟩]).1 ≠ GNOME_KEYRING_RESULT_OK ∨
        (E.gnome_keyring_find_items_sync w.store GNOME_KEYRING_ITEM_GENERIC_SECRET
            [⟨lit "service", service⟩, ⟨lit "account", account⟩]).2 = []) →
      DeletePassword E w service account =
        (⟨w.store, w.calls ++ [.find_items GNOME_KEYRING_ITEM_GENERIC_SECRET
            [⟨lit "service", service⟩, ⟨lit "account", account⟩]]⟩, some ErrUnknown)) ∧
    ((GetPassword E w service account).2.2 = some ErrNotFound →
      (DeletePassword E w service account).2 = some ErrUnknown ∧
      (DeletePassword E w service account).1.store = w.store) := by
  rw [GetPassword_valid E w service account hs ha,
    DeletePassword_valid E w service account hs ha]
  rcases hf : E.gnome_keyring_find_items_sync w.store GNOME_KEYRING_ITEM_GENERIC_SECRET
      [⟨lit "service", service⟩, ⟨lit "account", account⟩] with ⟨res, ms⟩
  cases ms with
  | nil => cases res <;> simp
  | cons m rest => cases res <;> simp

/-- C7, exercised: on the empty keyring `GetPassword` answers `ErrNotFound`
and `DeletePassword` answers `ErrUnknown` after a single search request. -/
theorem DeletePassword_no_match_witness :
    (isValidNonNullUTF8 mail = true ∧ isValidNonNullUTF8 alice = true) ∧
    (GetPassword keepingOldest freshWorld mail alice).2.2 = some ErrNotFound ∧
    DeletePassword keepingOldest freshWorld mail alice =
      (⟨freshWorld.store, freshWorld.calls ++ [.find_items GNOME_KEYRING_ITEM_GENERIC_SECRET
          [⟨lit "service", mail⟩, ⟨lit "account", alice⟩]]⟩, some ErrUnknown) ∧
    ((DeletePassword keepingOldest freshWorld mail alice).2 = some ErrUnknown ∧
      (DeletePassword keepingOldest freshWorld mail alice).1.store = freshWorld.store) :=
  ⟨by decide, by decide,
   (DeletePassword_no_match keepingOldest freshWorld mail alice (by decide) (by decide)).1
     (Or.inl (by decide)),
   (DeletePassword_no_match keepingOldest freshWorld mail alice (by decide) (by decide)).2
     (by decide)⟩

/-- C8: on an accepted pair, when the native search reports OK with a
non-empty list of matches, `DeletePassword` makes, after the search, exactly
one delete request, on the default keyring, for the item id of the first
match; it returns nil when that request reports OK and `ErrUnknown` for every
other result, and the store is the one the delete request leaves. -/
theorem DeletePassword_first_match {σ : Type} (E : Env σ) (w : World σ)
    (service account : GoStr) (found : GnomeKeyringFound) (others : List GnomeKeyringFound)
    (hs : isValidNonNullUTF8 service = true) (ha : isValidNonNullUTF8 account = true)
    (h : E.gnome_keyring_find_items_sync w.store GNOME_KEYRING_ITEM_GENERIC_SECRET
            [⟨lit "service", service⟩, ⟨lit "account", account⟩]
          = (GNOME_KEYRING_RESULT_OK, found :: others)) :
    (DeletePassword E w service account).1.calls =
      w.calls ++ [.find_items GNOME_KEYRING_ITEM_GENERIC_SECRET
          [⟨lit "service", service⟩, ⟨lit "account", account⟩],
        .item_delete none found.item_id] ∧
    (DeletePassword E w service account).1.store =
      (E.gnome_keyring_item_delete_sync w.store none found.item_id).1 ∧
    ((E.gnome_keyring_item_delete_sync w.store none found.item_id).2 = GNOME_KEYRING_RESULT_OK →
      (DeletePassword E w service account).2 = none) ∧
    ((E.gnome_keyring_item_delete_sync w.store none found.item_id).2 ≠ GNOME_KEYRING_RESULT_OK →
      (DeletePassword E w service account).2 = some ErrUnknown) := by
  rw [DeletePassword_valid E w service account hs ha, h]
  refine ⟨rfl, rfl, ?_, ?_⟩
  · intro hd
    simp [hd]
  · intro hd
    simp [hd]

/-- C8, exercised: of the two items of the pair only the first listed one,
id 1, is asked to be deleted. -/
theorem DeletePassword_first_match_witness :
    (isValidNonNullUTF8 mail = true ∧ isValidNonNullUTF8 alice = true) ∧
    keepingOldest.gnome_keyring_find_items_sync twoItemWorld.store
        GNOME_KEYRING_ITEM_GENERIC_SECRET [⟨lit "service", mail⟩, ⟨lit "account", alice⟩]
      = (GNOME_KEYRING_RESULT_OK, [olderFound, newerFound]) ∧
    olderFound.item_id = 1 ∧
    (DeletePassword keepingOldest twoItemWorld mail alice).2 = none ∧
    (DeletePassword keepingOldest twoItemWorld mail alice).1.calls =
      twoItemWorld.calls ++ [.find_items GNOME_KEYRING_ITEM_GENERIC_SECRET
          [⟨lit "service", mail⟩, ⟨lit "account", alice⟩],
        .item_delete none olderFound.item_id] :=
  ⟨by decide, by decide, by decide,
   (DeletePassword_first_match keepingOldest twoItemWorld mail alice olderFound [newerFound]
     (by decide) (by decide) (by decide)).2.2.1 (by decide),
   (DeletePassword_first_match keepingOldest twoItemWorld mail alice olderFound [newerFound]
     (by decide) (by decide) (by decide)).1⟩

/-- C10: on accepted arguments `AddPassword` returns nil exactly when the
native create request reports OK, returns `ErrUnknown` for every other result
code, and never returns `ErrInvalidValue` or `ErrNotFound`. -/
theorem AddPassword_result {σ : Type} (E : Env σ) (w : World σ)
    (service account password : GoStr)
    (hs : isValidNonNullUTF8 service = true) (ha : isValidNonNullUTF8 account = true)
    (hp : isValidNonNullUTF8 password = true) :
    ((AddPassword E w service account password).2 = none ↔
      (E.gnome_keyring_item_create_sync w.store none GNOME_KEYRING_ITEM_GENERIC_SECRET
          (C.CString (Sprintf service account))
          [⟨lit "service", service⟩, ⟨lit "account", account⟩]
          (E.free (C.CString password)) false).2.1 = GNOME_KEYRING_RESULT_OK) ∧
    ((E.gnome_keyring_item_create_sync w.store none GNOME_KEYRING_ITEM_GENERIC_SECRET
          (C.CString (Sprintf service account))
          [⟨lit "service", service⟩, ⟨lit "account", account⟩]
          (E.free (C.CString password)) false).2.1 ≠ GNOME_KEYRING_RESULT_OK →
      (AddPassword E w service account password).2 = some ErrUnknown) ∧
    (AddPassword E w service account password).2 ≠ some ErrInvalidValue ∧
    (AddPassword E w service account password).2 ≠ some ErrNotFound := by
  rw [AddPassword_valid E w service account password hs ha hp]
  by_cases hr : (E.gnome_keyring_item_create_sync w.store none GNOME_KEYRING_ITEM_GENERIC_SECRET
      (C.CString (Sprintf service account))
      [⟨lit "service", service⟩, ⟨lit "account", account⟩]
      (E.free (C.CString password)) false).2.1 = GNOME_KEYRING_RESULT_OK
  · simp [hr]
  · simp [hr]

/-- C10, exercised: the create request of the scenario reports OK and
`AddPassword` returns nil. -/
theorem AddPassword_result_witness :
    (isValidNonNullUTF8 mail = true ∧ isValidNonNullUTF8 alice = true ∧
      isValidNonNullUTF8 s3cr3t = true) ∧
    (AddPassword keepingOldest freshWorld mail alice s3cr3t).2 = none ∧
    (AddPassword keepingOldest freshWorld mail alice s3cr3t).2 ≠ some ErrInvalidValue :=
  ⟨by decide,
   (AddPassword_result keepingOldest freshWorld mail alice s3cr3t (by decide) (by decide)
     (by decide)).1.2 (by decide),
   (AddPassword_result keepingOldest freshWorld mail alice s3cr3t (by decide) (by decide)
     (by decide)).2.2.1⟩

/-! ## The password copy released before use -/

/-- C9: the single create request `AddPassword` makes in the scenario of the
specification, with an allocator that links released blocks: type, display
label, attribute list and update flag are as claimed, the secret argument is
the block released at line 194, which no longer reads as the password. -/
theorem AddPassword_request_released_secret :
    (AddPassword linkingOldest freshWorld mail alice s3cr3t).1.calls =
      [.item_create none GNOME_KEYRING_ITEM_GENERIC_SECRET
        (C.CString (lit "mail@alice@example.com"))
        [⟨lit "service", mail⟩, ⟨lit "account", alice⟩]
        (linkingFree (C.CString s3cr3t)) false] ∧
    cstr (C.CString (lit "mail@alice@example.com")) = mail ++ lit "@" ++ alice ∧
    cstr (linkingFree (C.CString s3cr3t)) = [] ∧
    cstr (linkingFree (C.CString s3cr3t)) ≠ s3cr3t := by
  decide

/-- C2: the scenario of the specification on the empty keyring.  With an
allocator that links released blocks `AddPassword` returns nil and the
`GetPassword` that follows returns the empty string, not the password; the
password comes back only when the allocator happens to keep the bytes of the
block released at line 194. -/
theorem AddPassword_GetPassword_released_secret :
    (AddPassword linkingOldest freshWorld mail alice s3cr3t).2 = none ∧
    (GetPassword linkingOldest
        (AddPassword linkingOldest freshWorld mail alice s3cr3t).1 mail alice).2 = ([], none) ∧
    (GetPassword linkingOldest
        (AddPassword linkingOldest freshWorld mail alice s3cr3t).1 mail alice).2
      ≠ (s3cr3t, none) ∧
    (GetPassword keepingOldest
        (AddPassword keepingOldest freshWorld mail alice s3cr3t).1 mail alice).2
      = (s3cr3t, none) := by
  decide

/-! ## The three methods on the reference keyring -/

/-- Every item of a keyring has an id below the fresh one. -/
theorem freshId_gt (k : Keyring) : ∀ it ∈ k.items, it.item_id < k.freshId := by
  intro it hit
  have key : ∀ (l : List Item), it ∈ l →
      it.item_id ≤ (l.map (fun it => it.item_id)).foldr max 0 := by
    intro l
    induction l with
    | nil => intro h; cases h
    | cons x xs ih =>
      intro h
      simp only [List.map_cons, List.foldr_cons]
      rcases List.mem_cons.1 h with h | h
      · subst h; exact le_max_left _ _
      · exact le_trans (ih h) (le_max_right _ _)
  exact Nat.lt_succ_of_le (key _ hit)

/-- On a reachable keyring `AddPassword` returns nil and adds one item. -/
theorem AddPassword_keyring (free : CBlock → CBlock)
    (order : List GnomeKeyringFound → List GnomeKeyringFound) (k : Keyring)
    (calls : List NativeCall) (service account password : GoStr)
    (hs : isValidNonNullUTF8 service = true) (ha : isValidNonNullUTF8 account = true)
    (hp : isValidNonNullUTF8 password = true) (hk : k.status = GNOME_KEYRING_RESULT_OK) :
    AddPassword (gnomeKeyring free order) ⟨k, calls⟩ service account password =
      (⟨k.withItem (k.added free service account password),
        calls ++ [.item_create none GNOME_KEYRING_ITEM_GENERIC_SECRET
          (C.CString (Sprintf service account))
          [⟨lit "service", service⟩, ⟨lit "account", account⟩]
          (free (C.CString password)) false]⟩, none) := by
  rw [AddPassword_valid _ _ _ _ _ hs ha hp]
  simp [gnomeKeyring, Keyring.item_create_sync, hk, Keyring.named, Keyring.added,
    Keyring.withItem]

/-- The added item is one of the pair, listed last in creation order. -/
theorem pairItems_withItem (free : CBlock → CBlock) (k : Keyring)
    (service account password : GoStr)
    (hs : isValidNonNullUTF8 service = true) (ha : isValidNonNullUTF8 account = true) :
    (k.withItem (k.added free service account password)).pairItems service account =
      k.pairItems service account ++ [k.added free service account password] := by
  simp [Keyring.pairItems, Keyring.withItem, List.filter_append,
    createAttributes_valid service account hs ha, Keyring.hit, Keyring.added]

/-- On a reachable keyring `GetPassword` returns the secret of the first
listed item of the pair, or `ErrNotFound` when none is listed. -/
theorem GetPassword_keyring (free : CBlock → CBlock)
    (order : List GnomeKeyringFound → List GnomeKeyringFound) (k : Keyring)
    (calls : List NativeCall) (service account : GoStr)
    (hs : isValidNonNullUTF8 service = true) (ha : isValidNonNullUTF8 account = true)
    (hk : k.status = GNOME_KEYRING_RESULT_OK) :
    (GetPassword (gnomeKeyring free order) ⟨k, calls⟩ service account).2 =
      match order ((k.pairItems service account).map k.toFound) with
      | [] => ([], some ErrNotFound)
      | found :: _ => (cstr found.secret, none) := by
  rw [GetPassword_valid _ _ _ _ hs ha]
  simp only [gnomeKeyring, Keyring.find_items_sync, hk, Keyring.pairItems,
    createAttributes_valid service account hs ha]
  cases order (List.map k.toFound (List.filter
      (Keyring.hit GNOME_KEYRING_ITEM_GENERIC_SECRET
        [⟨lit "service", service⟩, ⟨lit "account", account⟩]) k.items)) with
  | nil => simp
  | cons m ms => simp

/-- On a reachable keyring `DeletePassword` removes the items that have the id
of the first listed item of the pair, and returns nil. -/
theorem DeletePassword_keyring (free : CBlock → CBlock)
    (order : List GnomeKeyringFound → List GnomeKeyringFound) (k : Keyring)
    (calls : List NativeCall) (service account : GoStr)
    (found : GnomeKeyringFound) (others : List GnomeKeyringFound)
    (hs : isValidNonNullUTF8 service = true) (ha : isValidNonNullUTF8 account = true)
    (hk : k.status = GNOME_KEYRING_RESULT_OK)
    (hl : order ((k.pairItems service account).map k.toFound) = found :: others)
    (hid : ∃ it ∈ k.items, it.item_id = found.item_id) :
    DeletePassword (gnomeKeyring free order) ⟨k, calls⟩ service account =
      (⟨k.withoutId found.item_id,
        calls ++ [.find_items GNOME_KEYRING_ITEM_GENERIC_SECRET
            [⟨lit "service", service⟩, ⟨lit "account", account⟩],
          .item_delete none found.item_id]⟩, none) := by
  rw [DeletePassword_valid _ _ _ _ hs ha]
  simp only [Keyring.pairItems, createAttributes_valid service account hs ha] at hl
  have hany : k.items.any (fun it => it.item_id == found.item_id) = true := by
    rcases hid with ⟨it, hit, h⟩
    exact List.any_eq_true.2 ⟨it, hit, by simp [h]⟩
  simp [gnomeKeyring, Keyring.find_items_sync, hk, hl, Keyring.item_delete_sync,
    Keyring.named, hany, Keyring.withoutId]

/-- A non-empty list is listed as a non-empty list. -/
theorem order_cons (order : List GnomeKeyringFound → List GnomeKeyringFound)
    (hperm : ∀ l, (order l).Perm l) (l : List GnomeKeyringFound) (hl : l ≠ []) :
    ∃ found others, order l = found :: others := by
  cases h : order l with
  | nil =>
    have := hperm l
    rw [h] at this
    exact absurd (List.Perm.nil_eq this).symm hl
  | cons m ms => exact ⟨m, ms, rfl⟩

/-- What `GetPassword` returns after one and after two `AddPassword` calls on
a reachable reference keyring: the secret of the head of the store's listing
of the items of the pair. -/
theorem GetPassword_after_adds (free : CBlock → CBlock)
    (order : List GnomeKeyringFound → List GnomeKeyringFound) (k : Keyring)
    (calls : List NativeCall) (service account p1 p2 : GoStr)
    (hs : isValidNonNullUTF8 service = true) (ha : isValidNonNullUTF8 account = true)
    (hp1 : isValidNonNullUTF8 p1 = true) (hp2 : isValidNonNullUTF8 p2 = true)
    (hk : k.status = GNOME_KEYRING_RESULT_OK) :
    (GetPassword (gnomeKeyring free order)
        (AddPassword (gnomeKeyring free order) ⟨k, calls⟩ service account p1).1
        service account).2 =
      (match order ((k.pairItems service account ++
          [k.added free service account p1]).map k.toFound) with
        | [] => ([], some ErrNotFound)
        | found :: _ => (cstr found.secret, none)) ∧
    (GetPassword (gnomeKeyring free order)
        (AddPassword (gnomeKeyring free order)
          (AddPassword (gnomeKeyring free order) ⟨k, calls⟩ service account p1).1
          service account p2).1 service account).2 =
      (match order ((k.pairItems service account ++ [k.added free service account p1,
          (k.withItem (k.added free service account p1)).added free service account
            p2]).map k.toFound) with
        | [] => ([], some ErrNotFound)
        | found :: _ => (cstr found.secret, none)) := by
  have hk1 : (k.withItem (k.added free service account p1)).status
      = GNOME_KEYRING_RESULT_OK := hk
  have hk2 : ((k.withItem (k.added free service account p1)).withItem
      ((k.withItem (k.added free service account p1)).added free service account p2)).status
      = GNOME_KEYRING_RESULT_OK := hk
  rw [AddPassword_keyring free order k calls service account p1 hs ha hp1 hk]
  simp only []
  rw [AddPassword_keyring free order _ _ service account p2 hs ha hp2 hk1]
  simp only []
  rw [GetPassword_keyring free order _ _ service account hs ha hk1,
    GetPassword_keyring free order _ _ service account hs ha hk2,
    pairItems_withItem free _ service account p2 hs ha,
    pairItems_withItem free k service account p1 hs ha]
  constructor
  · rfl
  · simp only [List.append_assoc, List.singleton_append]
    rfl

/-- What `DeletePassword` does after an `AddPassword` on a reachable reference
keyring, and what `GetPassword` returns then. -/
theorem after_AddPassword_DeletePassword (free : CBlock → CBlock)
    (order : List GnomeKeyringFound → List GnomeKeyringFound) (k : Keyring)
    (calls : List NativeCall) (service account password : GoStr)
    (it : Item) (found : GnomeKeyringFound) (others : List GnomeKeyringFound)
    (hs : isValidNonNullUTF8 service = true) (ha : isValidNonNullUTF8 account = true)
    (hp : isValidNonNullUTF8 password = true)
    (hk : k.status = GNOME_KEYRING_RESULT_OK)
    (hl : order ((k.pairItems service account ++ [k.added free service account password]).map
        k.toFound) = found :: others)
    (hit : it ∈ (k.withItem (k.added free service account password)).items)
    (hid : it.item_id = found.item_id) :
    (DeletePassword (gnomeKeyring free order)
        (AddPassword (gnomeKeyring free order) ⟨k, calls⟩ service account password).1
        service account).2 = none ∧
    (GetPassword (gnomeKeyring free order)
        (DeletePassword (gnomeKeyring free order)
          (AddPassword (gnomeKeyring free order) ⟨k, calls⟩ service account password).1
          service account).1 service account).2 =
      (match order ((((k.withItem (k.added free service account password)).withoutId
          found.item_id).pairItems service account).map k.toFound) with
        | [] => ([], some ErrNotFound)
        | left :: _ => (cstr left.secret, none)) := by
  have hk2 : ((k.withItem (k.added free service account password)).withoutId
      found.item_id).status = GNOME_KEYRING_RESULT_OK := hk
  have hl1 : order (List.map (k.withItem (k.added free service account password)).toFound
      ((k.withItem (k.added free service account password)).pairItems service account))
      = found :: others := by
    rw [pairItems_withItem free k service account password hs ha]; exact hl
  rw [AddPassword_keyring free order k calls service account password hs ha hp hk]
  simp only []
  rw [DeletePassword_keyring free order (k.withItem (k.added free service account password))
    _ service account found others hs ha hk hl1 ⟨it, hit, hid⟩]
  simp only []
  rw [GetPassword_keyring free order
    ((k.withItem (k.added free service account password)).withoutId found.item_id)
    _ service account hs ha hk2]
  exact ⟨trivial, rfl⟩

/-- Reading the terminated copy of a C string gives the string. -/
theorem cstr_cstr_nul (p : CBlock) : cstr (cstr p ++ [0]) = cstr p :=
  cstr_append_nul _ (cstr_no_nul p)

/-- C3, amended: on a reachable reference keyring, whatever the allocator and
whatever the order in which the store lists its matches.  Two `AddPassword`
calls for one pair both return nil, each with update-if-exists FALSE; the
keyring is then the former one with two further items, of distinct ids, one per
call, each holding the secret its create request read, and the items of the
pair are the former ones followed by these two.  The search that follows
reports OK with the store's listing of all these items, and `GetPassword`
returns no error and the secret of the head of that listing: the item of the
second call when the store lists the newest first, the item of the first call
when it lists the oldest first and the pair had no item before. -/
theorem AddPassword_twice_adds_two_items (free : CBlock → CBlock)
    (order : List GnomeKeyringFound → List GnomeKeyringFound)
    (hperm : ∀ l, (order l).Perm l) (k : Keyring) (calls : List NativeCall)
    (service account p1 p2 : GoStr)
    (hs : isValidNonNullUTF8 service = true) (ha : isValidNonNullUTF8 account = true)
    (hp1 : isValidNonNullUTF8 p1 = true) (hp2 : isValidNonNullUTF8 p2 = true)
    (hk : k.status = GNOME_KEYRING_RESULT_OK) :
    AddPassword (gnomeKeyring free order) ⟨k, calls⟩ service account p1 =
      (⟨k.withItem (k.added free service account p1),
        calls ++ [.item_create none GNOME_KEYRING_ITEM_GENERIC_SECRET
          (C.CString (Sprintf service account))
          [⟨lit "service", service⟩, ⟨lit "account", account⟩]
          (free (C.CString p1)) false]⟩, none) ∧
    AddPassword (gnomeKeyring free order)
        (AddPassword (gnomeKeyring free order) ⟨k, calls⟩ service account p1).1
        service account p2 =
      (⟨(k.withItem (k.added free service account p1)).withItem
          ((k.withItem (k.added free service account p1)).added free service account p2),
        calls ++ [.item_create none GNOME_KEYRING_ITEM_GENERIC_SECRET
            (C.CString (Sprintf service account))
            [⟨lit "service", service⟩, ⟨lit "account", account⟩]
            (free (C.CString p1)) false,
          .item_create none GNOME_KEYRING_ITEM_GENERIC_SECRET
            (C.CString (Sprintf service account))
            [⟨lit "service", service⟩, ⟨lit "account", account⟩]
            (free (C.CString p2)) false]⟩, none) ∧
    (k.added free service account p1).item_id ≠
      ((k.withItem (k.added free service account p1)).added free service account p2).item_id ∧
    (k.added free service account p1).secret = cstr (free (C.CString p1)) ∧
    ((k.withItem (k.added free service account p1)).added free service account p2).secret
      = cstr (free (C.CString p2)) ∧
    ((k.withItem (k.added free service account p1)).withItem
        ((k.withItem (k.added free service account p1)).added free service account
          p2)).pairItems service account
      = k.pairItems service account ++ [k.added free service account p1,
          (k.withItem (k.added free service account p1)).added free service account p2] ∧
    (gnomeKeyring free order).gnome_keyring_find_items_sync
        ((k.withItem (k.added free service account p1)).withItem
          ((k.withItem (k.added free service account p1)).added free service account p2))
        GNOME_KEYRING_ITEM_GENERIC_SECRET
        [⟨lit "service", service⟩, ⟨lit "account", account⟩]
      = (GNOME_KEYRING_RESULT_OK,
          order ((k.pairItems service account ++ [k.added free service account p1,
            (k.withItem (k.added free service account p1)).added free service account
              p2]).map k.toFound)) ∧
    (∃ found others,
      order ((k.pairItems service account ++ [k.added free service account p1,
            (k.withItem (k.added free service account p1)).added free service account
              p2]).map k.toFound) = found :: others ∧
      (GetPassword (gnomeKeyring free order)
          (AddPassword (gnomeKeyring free order)
            (AddPassword (gnomeKeyring free order) ⟨k, calls⟩ service account p1).1
            service account p2).1 service account).2 = (cstr found.secret, none)) ∧
    (order = newestFirst →
      (GetPassword (gnomeKeyring free order)
          (AddPassword (gnomeKeyring free order)
            (AddPassword (gnomeKeyring free order) ⟨k, calls⟩ service account p1).1
            service account p2).1 service account).2 = (cstr (free (C.CString p2)), none)) ∧
    (order = oldestFirst → k.pairItems service account = [] →
      (GetPassword (gnomeKeyring free order)
          (AddPassword (gnomeKeyring free order)
            (AddPassword (gnomeKeyring free order) ⟨k, calls⟩ service account p1).1
            service account p2).1 service account).2 = (cstr (free (C.CString p1)), none)) := by
  have h1 := AddPassword_keyring free order k calls service account p1 hs ha hp1 hk
  have hk1 : (k.withItem (k.added free service account p1)).status
      = GNOME_KEYRING_RESULT_OK := hk
  have h2 := AddPassword_keyring free order (k.withItem (k.added free service account p1))
    (calls ++ [.item_create none GNOME_KEYRING_ITEM_GENERIC_SECRET
          (C.CString (Sprintf service account))
          [⟨lit "service", service⟩, ⟨lit "account", account⟩]
          (free (C.CString p1)) false]) service account p2 hs ha hp2 hk1
  have e1 := congrArg Prod.fst h1
  simp only [] at e1
  have h2' : AddPassword (gnomeKeyring free order)
        (AddPassword (gnomeKeyring free order) ⟨k, calls⟩ service account p1).1
        service account p2 =
      (⟨(k.withItem (k.added free service account p1)).withItem
          ((k.withItem (k.added free service account p1)).added free service account p2),
        calls ++ [.item_create none GNOME_KEYRING_ITEM_GENERIC_SECRET
            (C.CString (Sprintf service account))
            [⟨lit "service", service⟩, ⟨lit "account", account⟩]
            (free (C.CString p1)) false,
          .item_create none GNOME_KEYRING_ITEM_GENERIC_SECRET
            (C.CString (Sprintf service account))
            [⟨lit "service", service⟩, ⟨lit "account", account⟩]
            (free (C.CString p2)) false]⟩, none) := by
    rw [e1, h2]
    simp
  have e2 := congrArg Prod.fst h2'
  simp only [] at e2
  have hpairs : ((k.withItem (k.added free service account p1)).withItem
        ((k.withItem (k.added free service account p1)).added free service account
          p2)).pairItems service account
      = k.pairItems service account ++ [k.added free service account p1,
          (k.withItem (k.added free service account p1)).added free service account p2] := by
    rw [pairItems_withItem free _ service account p2 hs ha,
      pairItems_withItem free k service account p1 hs ha]
    simp
  have hids : (k.added free service account p1).item_id ≠
      ((k.withItem (k.added free service account p1)).added free service account
        p2).item_id := by
    have hlt := freshId_gt (k.withItem (k.added free service account p1))
      (k.added free service account p1) (by simp [Keyring.withItem])
    exact Nat.ne_of_lt hlt
  have hk2 : ((k.withItem (k.added free service account p1)).withItem
      ((k.withItem (k.added free service account p1)).added free service account p2)).status
      = GNOME_KEYRING_RESULT_OK := hk
  have hto : ((k.withItem (k.added free service account p1)).withItem
      ((k.withItem (k.added free service account p1)).added free service account p2)).toFound
      = k.toFound := rfl
  have hne : List.map k.toFound
      (k.pairItems service account ++ [k.added free service account p1,
        (k.withItem (k.added free service account p1)).added free service account p2])
      ≠ [] := by simp
  obtain ⟨m, ms, hm⟩ := order_cons order hperm _ hne
  have hg := GetPassword_keyring free order _
    (calls ++ [.item_create none GNOME_KEYRING_ITEM_GENERIC_SECRET
          (C.CString (Sprintf service account))
          [⟨lit "service", service⟩, ⟨lit "account", account⟩]
          (free (C.CString p1)) false,
        .item_create none GNOME_KEYRING_ITEM_GENERIC_SECRET
          (C.CString (Sprintf service account))
          [⟨lit "service", service⟩, ⟨lit "account", account⟩]
          (free (C.CString p2)) false]) service account hs ha hk2
  rw [hpairs, hto] at hg
  refine ⟨h1, h2', hids, rfl, rfl, hpairs, ?_, ⟨m, ms, hm, ?_⟩, ?_, ?_⟩
  · have hfind : (gnomeKeyring free order).gnome_keyring_find_items_sync
        ((k.withItem (k.added free service account p1)).withItem
          ((k.withItem (k.added free service account p1)).added free service account p2))
        GNOME_KEYRING_ITEM_GENERIC_SECRET
        [⟨lit "service", service⟩, ⟨lit "account", account⟩]
        = (if (order (List.map k.toFound
              (((k.withItem (k.added free service account p1)).withItem
                ((k.withItem (k.added free service account p1)).added free service account
                  p2)).pairItems service account))).isEmpty
            then (GNOME_KEYRING_RESULT_NO_MATCH, [])
            else (GNOME_KEYRING_RESULT_OK, order (List.map k.toFound
              (((k.withItem (k.added free service account p1)).withItem
                ((k.withItem (k.added free service account p1)).added free service account
                  p2)).pairItems service account)))) := by
      simp only [gnomeKeyring, Keyring.find_items_sync, hk2, Keyring.pairItems,
        createAttributes_valid service account hs ha, hto]
      simp
    rw [hfind, hpairs, hm]
    simp
  · rw [e2, hg, hm]
  · intro ho
    rw [e2, hg]
    subst ho
    simp [newestFirst, Keyring.toFound, Keyring.added, cstr_cstr_nul]
  · intro ho hnil
    rw [e2, hg]
    subst ho
    simp [oldestFirst, hnil, Keyring.toFound, Keyring.added, cstr_cstr_nul]

/-- C3 amended, exercised: a keyring that already holds one item of the pair,
an allocator that links released blocks, newest item listed first; the two
added items get the ids 2 and 3. -/
theorem AddPassword_twice_adds_two_items_witness :
    ((∀ l, (newestFirst l).Perm l) ∧ isValidNonNullUTF8 mail = true ∧
      isValidNonNullUTF8 alice = true ∧ isValidNonNullUTF8 swordfish = true ∧
      isValidNonNullUTF8 s3cr3t = true ∧
      oneItemWorld.store.status = GNOME_KEYRING_RESULT_OK) ∧
    (oneItemWorld.store.added linkingFree mail alice swordfish).item_id = 2 ∧
    ((oneItemWorld.store.withItem
      (oneItemWorld.store.added linkingFree mail alice swordfish)).added linkingFree
        mail alice s3cr3t).item_id = 3 ∧
    (GetPassword (gnomeKeyring linkingFree newestFirst)
        (AddPassword (gnomeKeyring linkingFree newestFirst)
          (AddPassword (gnomeKeyring linkingFree newestFirst)
            ⟨oneItemWorld.store, []⟩ mail alice swordfish).1
          mail alice s3cr3t).1 mail alice).2 = (cstr (linkingFree (C.CString s3cr3t)), none) ∧
    ((oneItemWorld.store.withItem
        (oneItemWorld.store.added linkingFree mail alice swordfish)).withItem
        ((oneItemWorld.store.withItem
          (oneItemWorld.store.added linkingFree mail alice swordfish)).added linkingFree
            mail alice s3cr3t)).pairItems mail alice
      = oneItemWorld.store.pairItems mail alice ++
          [oneItemWorld.store.added linkingFree mail alice swordfish,
            (oneItemWorld.store.withItem
              (oneItemWorld.store.added linkingFree mail alice swordfish)).added linkingFree
                mail alice s3cr3t] :=
  ⟨⟨fun l => List.reverse_perm l, by decide, by decide, by decide, by decide, rfl⟩,
   by decide, by decide,
   (AddPassword_twice_adds_two_items linkingFree newestFirst (fun l => List.reverse_perm l)
     oneItemWorld.store [] mail alice swordfish s3cr3t (by decide) (by decide) (by decide)
     (by decide) rfl).2.2.2.2.2.2.2.2.1 rfl,
   (AddPassword_twice_adds_two_items linkingFree newestFirst (fun l => List.reverse_perm l)
     oneItemWorld.store [] mail alice swordfish s3cr3t (by decide) (by decide) (by decide)
     (by decide) rfl).2.2.2.2.2.1⟩

/-- Deleting the fresh id from a keyring extended by an item of that id gives
the keyring back. -/
theorem withoutId_withItem_fresh (k : Keyring) (it : Item) (h : it.item_id = k.freshId) :
    (k.withItem it).withoutId k.freshId = k := by
  have hkeep : k.items.filter (fun x => x.item_id != k.freshId) = k.items := by
    apply List.filter_eq_self.2
    intro x hx
    have := freshId_gt k x hx
    simp only [bne_iff_ne, ne_eq]
    omega
  cases k with
  | mk status name items =>
    simp only [Keyring.withItem, Keyring.withoutId, List.filter_append] at hkeep ⊢
    rw [hkeep]
    simp [h]

/-- C4, amended: on a reachable reference keyring, whatever the allocator and
whatever the order in which the store lists its matches.  `AddPassword` returns
nil and adds one item; `DeletePassword` then returns nil after one search and
one delete request, for the id of the head of the store's listing of the items
of the pair (the former ones and the new one), and only the items of that id
leave the keyring; `GetPassword` then returns the secret of the head of the
listing of the items of the pair that are left, or `ErrNotFound` when none is.
It returns `ErrNotFound` exactly when the keyring held no item of the pair
before the `AddPassword`; when it held one, an item of the pair is left and
`GetPassword` returns a secret with a nil error.  When the store lists the
newest item first, the keyring after the `DeletePassword` is the one before the
`AddPassword`, and `GetPassword` returns what it returned then. -/
theorem AddPassword_DeletePassword_GetPassword (free : CBlock → CBlock)
    (order : List GnomeKeyringFound → List GnomeKeyringFound)
    (hperm : ∀ l, (order l).Perm l) (k : Keyring) (calls : List NativeCall)
    (service account password : GoStr)
    (hs : isValidNonNullUTF8 service = true) (ha : isValidNonNullUTF8 account = true)
    (hp : isValidNonNullUTF8 password = true)
    (hk : k.status = GNOME_KEYRING_RESULT_OK) :
    (AddPassword (gnomeKeyring free order) ⟨k, calls⟩ service account password).2 = none ∧
    (∃ found others,
      order ((k.pairItems service account ++ [k.added free service account password]).map
        k.toFound) = found :: others ∧
      DeletePassword (gnomeKeyring free order)
          (AddPassword (gnomeKeyring free order) ⟨k, calls⟩ service account password).1
          service account =
        (⟨(k.withItem (k.added free service account password)).withoutId found.item_id,
          calls ++ [.item_create none GNOME_KEYRING_ITEM_GENERIC_SECRET
              (C.CString (Sprintf service account))
              [⟨lit "service", service⟩, ⟨lit "account", account⟩]
              (free (C.CString password)) false,
            .find_items GNOME_KEYRING_ITEM_GENERIC_SECRET
              [⟨lit "service", service⟩, ⟨lit "account", account⟩],
            .item_delete none found.item_id]⟩, none) ∧
      (GetPassword (gnomeKeyring free order)
          (DeletePassword (gnomeKeyring free order)
            (AddPassword (gnomeKeyring free order) ⟨k, calls⟩ service account password).1
            service account).1 service account).2 =
        (match order ((((k.withItem (k.added free service account password)).withoutId
            found.item_id).pairItems service account).map k.toFound) with
          | [] => ([], some ErrNotFound)
          | left :: _ => (cstr left.secret, none)) ∧
      (k.pairItems service account ≠ [] →
        ∃ left rest,
          order ((((k.withItem (k.added free service account password)).withoutId
            found.item_id).pairItems service account).map k.toFound) = left :: rest ∧
          (GetPassword (gnomeKeyring free order)
            (DeletePassword (gnomeKeyring free order)
              (AddPassword (gnomeKeyring free order) ⟨k, calls⟩ service account password).1
              service account).1 service account).2 = (cstr left.secret, none))) ∧
    ((GetPassword (gnomeKeyring free order)
        (DeletePassword (gnomeKeyring free order)
          (AddPassword (gnomeKeyring free order) ⟨k, calls⟩ service account password).1
          service account).1 service account).2 = ([], some ErrNotFound)
      ↔ k.pairItems service account = []) ∧
    (order = newestFirst →
      (DeletePassword (gnomeKeyring free order)
          (AddPassword (gnomeKeyring free order) ⟨k, calls⟩ service account password).1
          service account).1.store = k ∧
      (GetPassword (gnomeKeyring free order)
        (DeletePassword (gnomeKeyring free order)
          (AddPassword (gnomeKeyring free order) ⟨k, calls⟩ service account password).1
          service account).1 service account).2
        = (GetPassword (gnomeKeyring free order) ⟨k, calls⟩ service account).2) := by
  have h1 := AddPassword_keyring free order k calls service account password hs ha hp hk
  have e1 := congrArg Prod.fst h1
  have r1 := congrArg Prod.snd h1
  simp only [] at e1 r1
  -- the listing after the add
  have hpair := pairItems_withItem free k service account password hs ha
  have hne : List.map k.toFound
      (k.pairItems service account ++ [k.added free service account password]) ≠ [] := by
    simp
  obtain ⟨m, ms, hm0⟩ := order_cons order hperm _ hne
  have hm : order (List.map (k.withItem (k.added free service account password)).toFound
      ((k.withItem (k.added free service account password)).pairItems service account))
      = m :: ms := by
    rw [hpair]; exact hm0
  have hmem : m ∈ List.map (k.withItem (k.added free service account password)).toFound
      ((k.withItem (k.added free service account password)).pairItems service account) := by
    have := (hperm (List.map (k.withItem (k.added free service account password)).toFound
      ((k.withItem (k.added free service account password)).pairItems service account))).mem_iff
      (a := m)
    rw [hm] at this
    exact this.1 (List.mem_cons_self _ _)
  obtain ⟨it, hit, hitm⟩ := List.mem_map.1 hmem
  have hid : it.item_id = m.item_id := by rw [← hitm]; rfl
  have hitk : it ∈ (k.withItem (k.added free service account password)).items :=
    (List.mem_filter.1 hit).1
  have h2 := DeletePassword_keyring free order
    (k.withItem (k.added free service account password))
    (calls ++ [.item_create none GNOME_KEYRING_ITEM_GENERIC_SECRET
      (C.CString (Sprintf service account))
      [⟨lit "service", service⟩, ⟨lit "account", account⟩]
      (free (C.CString password)) false]) service account m ms hs ha hk hm
    ⟨it, hitk, hid⟩
  have h2' : DeletePassword (gnomeKeyring free order)
      (AddPassword (gnomeKeyring free order) ⟨k, calls⟩ service account password).1
      service account =
      (⟨(k.withItem (k.added free service account password)).withoutId m.item_id,
        calls ++ [.item_create none GNOME_KEYRING_ITEM_GENERIC_SECRET
            (C.CString (Sprintf service account))
            [⟨lit "service", service⟩, ⟨lit "account", account⟩]
            (free (C.CString password)) false,
          .find_items GNOME_KEYRING_ITEM_GENERIC_SECRET
            [⟨lit "service", service⟩, ⟨lit "account", account⟩],
          .item_delete none m.item_id]⟩, none) := by
    rw [e1, h2]
    simp
  have e2 := congrArg Prod.fst h2'
  simp only [] at e2
  have hk2 : ((k.withItem (k.added free service account password)).withoutId m.item_id).status
      = GNOME_KEYRING_RESULT_OK := hk
  have hto : ((k.withItem (k.added free service account password)).withoutId
      m.item_id).toFound = k.toFound := rfl
  have hg := GetPassword_keyring free order
    ((k.withItem (k.added free service account password)).withoutId m.item_id)
    (calls ++ [.item_create none GNOME_KEYRING_ITEM_GENERIC_SECRET
        (C.CString (Sprintf service account))
        [⟨lit "service", service⟩, ⟨lit "account", account⟩]
        (free (C.CString password)) false,
      .find_items GNOME_KEYRING_ITEM_GENERIC_SECRET
        [⟨lit "service", service⟩, ⟨lit "account", account⟩],
      .item_delete none m.item_id]) service account hs ha hk2
  rw [hto] at hg
  rw [← e2] at hg
  -- the items of the pair that are left
  have hleft : ((k.withItem (k.added free service account password)).withoutId
      m.item_id).pairItems service account = [] ↔ k.pairItems service account = [] := by
    rw [hpair] at hit
    constructor
    · intro hnil
      by_contra hP
      obtain ⟨x, hx⟩ := List.exists_mem_of_ne_nil _ hP
      have hxk : x ∈ k.items := (List.mem_filter.1 hx).1
      have hxhit := (List.mem_filter.1 hx).2
      have hxlt := freshId_gt k x hxk
      rcases List.mem_append.1 hit with hold | hnew
      · -- an older item is deleted: the new one is left
        have hitlt := freshId_gt k it (List.mem_filter.1 hold).1
        have hnewin : k.added free service account password ∈
            ((k.withItem (k.added free service account password)).withoutId
              m.item_id).pairItems service account := by
          have hin : k.added free service account password ∈
              (k.withItem (k.added free service account password)).pairItems
                service account := by
            rw [hpair]; simp
          simp only [Keyring.pairItems, Keyring.withoutId, List.mem_filter] at hin ⊢
          refine ⟨⟨hin.1, ?_⟩, hin.2⟩
          have : (k.added free service account password).item_id = k.freshId := rfl
          simp only [bne_iff_ne, ne_eq, this]
          omega
        rw [hnil] at hnewin
        cases hnewin
      · -- the new item is deleted: the older ones are left
        have hiteq : it = k.added free service account password := by simpa using hnew
        have hfresh : m.item_id = k.freshId := by rw [← hid, hiteq]; rfl
        have hxin : x ∈ ((k.withItem (k.added free service account password)).withoutId
              m.item_id).pairItems service account := by
          simp only [Keyring.pairItems, Keyring.withoutId, Keyring.withItem, List.mem_filter,
            List.mem_append]
          refine ⟨⟨Or.inl hxk, ?_⟩, hxhit⟩
          simp only [bne_iff_ne, ne_eq, hfresh]
          omega
        rw [hnil] at hxin
        cases hxin
    · intro hP
      rw [hP] at hit
      have hiteq : it = k.added free service account password := by simpa using hit
      have hfresh : m.item_id = k.freshId := by rw [← hid, hiteq]; rfl
      apply List.eq_nil_iff_forall_not_mem.2
      intro x hx
      simp only [Keyring.pairItems, Keyring.withoutId, Keyring.withItem, List.mem_filter,
        List.mem_append, List.mem_singleton, bne_iff_ne, ne_eq] at hx
      rcases hx.1.1 with hxk | hxnew
      · have : x ∈ k.pairItems service account := List.mem_filter.2 ⟨hxk, hx.2⟩
        rw [hP] at this
        cases this
      · apply hx.1.2
        rw [hxnew, hfresh]
        rfl
  -- what the last search lists
  have hlist : order (List.map k.toFound
      (((k.withItem (k.added free service account password)).withoutId
        m.item_id).pairItems service account)) = [] ↔ k.pairItems service account = [] := by
    constructor
    · intro hL
      have hp0 := hperm (List.map k.toFound
        (((k.withItem (k.added free service account password)).withoutId
          m.item_id).pairItems service account))
      rw [hL] at hp0
      exact hleft.1 (List.map_eq_nil_iff.1 (List.Perm.nil_eq hp0).symm)
    · intro hP
      have hp0 := hperm (List.map k.toFound
        (((k.withItem (k.added free service account password)).withoutId
          m.item_id).pairItems service account))
      rw [hleft.2 hP] at hp0 ⊢
      exact List.Perm.eq_nil hp0
  refine ⟨r1, ⟨m, ms, hm0, h2', hg, ?_⟩, ?_, ?_⟩
  · intro hP
    cases hL : order (List.map k.toFound
        (((k.withItem (k.added free service account password)).withoutId
          m.item_id).pairItems service account)) with
    | nil => exact absurd (hlist.1 hL) hP
    | cons f fs =>
      refine ⟨f, fs, rfl, ?_⟩
      rw [hg, hL]
  · rw [hg]
    cases hL : order (List.map k.toFound
        (((k.withItem (k.added free service account password)).withoutId
          m.item_id).pairItems service account)) with
    | nil =>
      simp only [true_iff]
      exact hlist.1 hL
    | cons f fs =>
      simp only [Prod.mk.injEq, reduceCtorEq, and_false, false_iff]
      intro hP
      rw [hlist.2 hP] at hL
      cases hL
  · intro ho
    subst ho
    have hmid : m.item_id = k.freshId := by
      have : m = k.toFound (k.added free service account password) := by
        simp [newestFirst] at hm0
        exact hm0.1.symm
      rw [this]; rfl
    have hstore : (k.withItem (k.added free service account password)).withoutId m.item_id
        = k := by
      rw [hmid]
      exact withoutId_withItem_fresh k _ rfl
    constructor
    · rw [e2]
      exact hstore
    · rw [hg, GetPassword_keyring free newestFirst k calls service account hs ha hk, hstore]

/-- C4 amended, exercised, with an allocator that links released blocks and the
newest item listed first: on the empty keyring the sequence ends with
`ErrNotFound`; on a keyring that already holds an item of the pair, the
keyring after the `DeletePassword` is the former one and `GetPassword` returns
the former secret with a nil error. -/
theorem AddPassword_DeletePassword_GetPassword_witness :
    ((∀ l, (newestFirst l).Perm l) ∧ isValidNonNullUTF8 mail = true ∧
      isValidNonNullUTF8 alice = true ∧ isValidNonNullUTF8 s3cr3t = true ∧
      Keyring.empty.status = GNOME_KEYRING_RESULT_OK ∧
      oneItemWorld.store.status = GNOME_KEYRING_RESULT_OK ∧
      Keyring.empty.pairItems mail alice = [] ∧
      oneItemWorld.store.pairItems mail alice ≠ []) ∧
    ((AddPassword (gnomeKeyring linkingFree newestFirst) ⟨Keyring.empty, []⟩
        mail alice s3cr3t).2 = none ∧
      (GetPassword (gnomeKeyring linkingFree newestFirst)
        (DeletePassword (gnomeKeyring linkingFree newestFirst)
          (AddPassword (gnomeKeyring linkingFree newestFirst) ⟨Keyring.empty, []⟩
            mail alice s3cr3t).1 mail alice).1 mail alice).2 = ([], some ErrNotFound)) ∧
    ((AddPassword (gnomeKeyring linkingFree newestFirst) ⟨oneItemWorld.store, []⟩
        mail alice s3cr3t).2 = none ∧
      (DeletePassword (gnomeKeyring linkingFree newestFirst)
          (AddPassword (gnomeKeyring linkingFree newestFirst) ⟨oneItemWorld.store, []⟩
            mail alice s3cr3t).1 mail alice).1.store = oneItemWorld.store ∧
      (GetPassword (gnomeKeyring linkingFree newestFirst)
        (DeletePassword (gnomeKeyring linkingFree newestFirst)
          (AddPassword (gnomeKeyring linkingFree newestFirst) ⟨oneItemWorld.store, []⟩
            mail alice s3cr3t).1 mail alice).1 mail alice).2
        = (GetPassword (gnomeKeyring linkingFree newestFirst) ⟨oneItemWorld.store, []⟩
            mail alice).2 ∧
      (GetPassword (gnomeKeyring linkingFree newestFirst) ⟨oneItemWorld.store, []⟩
            mail alice).2 = (hunter2, none) ∧
      (GetPassword (gnomeKeyring linkingFree newestFirst)
        (DeletePassword (gnomeKeyring linkingFree newestFirst)
          (AddPassword (gnomeKeyring linkingFree newestFirst) ⟨oneItemWorld.store, []⟩
            mail alice s3cr3t).1 mail alice).1 mail alice).2 ≠ ([], some ErrNotFound)) :=
  ⟨⟨fun l => List.reverse_perm l, by decide, by decide, by decide, rfl, rfl, by decide,
      by decide⟩,
   ⟨(AddPassword_DeletePassword_GetPassword linkingFree newestFirst
        (fun l => List.reverse_perm l) Keyring.empty [] mail alice s3cr3t
        (by decide) (by decide) (by decide) rfl).1,
    (AddPassword_DeletePassword_GetPassword linkingFree newestFirst
        (fun l => List.reverse_perm l) Keyring.empty [] mail alice s3cr3t
        (by decide) (by decide) (by decide) rfl).2.2.1.2 (by decide)⟩,
   ⟨(AddPassword_DeletePassword_GetPassword linkingFree newestFirst
        (fun l => List.reverse_perm l) oneItemWorld.store [] mail alice s3cr3t
        (by decide) (by decide) (by decide) rfl).1,
    ((AddPassword_DeletePassword_GetPassword linkingFree newestFirst
        (fun l => List.reverse_perm l) oneItemWorld.store [] mail alice s3cr3t
        (by decide) (by decide) (by decide) rfl).2.2.2 rfl).1,
    ((AddPassword_DeletePassword_GetPassword linkingFree newestFirst
        (fun l => List.reverse_perm l) oneItemWorld.store [] mail alice s3cr3t
        (by decide) (by decide) (by decide) rfl).2.2.2 rfl).2,
    by decide,
    fun h => absurd ((AddPassword_DeletePassword_GetPassword linkingFree newestFirst
        (fun l => List.reverse_perm l) oneItemWorld.store [] mail alice s3cr3t
        (by decide) (by decide) (by decide) rfl).2.2.1.1 h) (by decide)⟩⟩

/-! ## Several items for one pair -/

/-- C3, refuted as stated, on the empty keyring with the oldest item listed
first and for every behaviour of the allocator: `AddPassword` with `hunter2`
then with `s3cr3t` both return nil and leave two items for the pair (so does
the newest-first listing), and `GetPassword` returns what it returned after the
first call alone, the secret read by the first create request; hence no
allocator makes it return the second password for every choice of that
password.  With an allocator that keeps released bytes it returns `hunter2`,
with one that links released blocks the empty string. -/
theorem AddPassword_twice_keeps_first :
    (∀ free : CBlock → CBlock,
      (AddPassword (gnomeKeyring free oldestFirst) freshWorld mail alice hunter2).2 = none ∧
      (AddPassword (gnomeKeyring free oldestFirst)
        (AddPassword (gnomeKeyring free oldestFirst) freshWorld mail alice hunter2).1
        mail alice s3cr3t).2 = none ∧
      ((AddPassword (gnomeKeyring free oldestFirst)
        (AddPassword (gnomeKeyring free oldestFirst) freshWorld mail alice hunter2).1
        mail alice s3cr3t).1.store.pairItems mail alice).length = 2 ∧
      ((AddPassword (gnomeKeyring free newestFirst)
        (AddPassword (gnomeKeyring free newestFirst) freshWorld mail alice hunter2).1
        mail alice s3cr3t).1.store.pairItems mail alice).length = 2 ∧
      (GetPassword (gnomeKeyring free oldestFirst)
        (AddPassword (gnomeKeyring free oldestFirst)
          (AddPassword (gnomeKeyring free oldestFirst) freshWorld mail alice hunter2).1
          mail alice s3cr3t).1 mail alice).2 = (cstr (free (C.CString hunter2)), none) ∧
      (GetPassword (gnomeKeyring free oldestFirst)
        (AddPassword (gnomeKeyring free oldestFirst)
          (AddPassword (gnomeKeyring free oldestFirst) freshWorld mail alice hunter2).1
          mail alice s3cr3t).1 mail alice).2 =
        (GetPassword (gnomeKeyring free oldestFirst)
          (AddPassword (gnomeKeyring free oldestFirst) freshWorld mail alice hunter2).1
          mail alice).2) ∧
    (∀ free : CBlock → CBlock,
      ¬ ∀ p2 : GoStr, isValidNonNullUTF8 p2 = true → hunter2 ≠ p2 →
        (GetPassword (gnomeKeyring free oldestFirst)
          (AddPassword (gnomeKeyring free oldestFirst)
            (AddPassword (gnomeKeyring free oldestFirst) freshWorld mail alice hunter2).1
            mail alice p2).1 mail alice).2 = (p2, none)) ∧
    (GetPassword keepingOldest
        (AddPassword keepingOldest
          (AddPassword keepingOldest freshWorld mail alice hunter2).1 mail alice s3cr3t).1
        mail alice).2 = (hunter2, none) ∧
    (GetPassword linkingOldest
        (AddPassword linkingOldest
          (AddPassword linkingOldest freshWorld mail alice hunter2).1 mail alice s3cr3t).1
        mail alice).2 = ([], none) ∧
    hunter2 ≠ s3cr3t ∧ ([] : GoStr) ≠ s3cr3t := by
  have hP : Keyring.empty.pairItems mail alice = [] := by decide
  have key : ∀ (free : CBlock → CBlock) (p2 : GoStr), isValidNonNullUTF8 p2 = true →
      (GetPassword (gnomeKeyring free oldestFirst)
        (AddPassword (gnomeKeyring free oldestFirst)
          (AddPassword (gnomeKeyring free oldestFirst) freshWorld mail alice hunter2).1
          mail alice p2).1 mail alice).2 = (cstr (free (C.CString hunter2)), none) := by
    intro free p2 hp2
    have h := (GetPassword_after_adds free oldestFirst Keyring.empty [] mail alice hunter2 p2
      (by decide) (by decide) (by decide) hp2 rfl).2
    rw [hP] at h
    simp only [freshWorld]
    rw [h]
    simp [oldestFirst, Keyring.toFound, Keyring.added, cstr_cstr_nul]
  have one : ∀ (free : CBlock → CBlock),
      (GetPassword (gnomeKeyring free oldestFirst)
          (AddPassword (gnomeKeyring free oldestFirst) freshWorld mail alice hunter2).1
          mail alice).2 = (cstr (free (C.CString hunter2)), none) := by
    intro free
    have h := (GetPassword_after_adds free oldestFirst Keyring.empty [] mail alice hunter2
      s3cr3t (by decide) (by decide) (by decide) (by decide) rfl).1
    rw [hP] at h
    simp only [freshWorld]
    rw [h]
    simp [oldestFirst, Keyring.toFound, Keyring.added, cstr_cstr_nul]
  refine ⟨?_, ?_, by decide, by decide, by decide, by decide⟩
  · intro free
    refine ⟨?_, ?_, ?_, ?_, key free s3cr3t (by decide), ?_⟩
    · simp only [freshWorld]
      rw [AddPassword_keyring free oldestFirst Keyring.empty [] mail alice hunter2
        (by decide) (by decide) (by decide) rfl]
    · simp only [freshWorld]
      rw [AddPassword_keyring free oldestFirst Keyring.empty [] mail alice hunter2
        (by decide) (by decide) (by decide) rfl]
      simp only []
      rw [AddPassword_keyring free oldestFirst _ _ mail alice s3cr3t
        (by decide) (by decide) (by decide) rfl]
    · simp only [freshWorld]
      rw [AddPassword_keyring free oldestFirst Keyring.empty [] mail alice hunter2
        (by decide) (by decide) (by decide) rfl]
      simp only []
      rw [AddPassword_keyring free oldestFirst _ _ mail alice s3cr3t
        (by decide) (by decide) (by decide) rfl]
      simp only []
      rw [pairItems_withItem free _ mail alice s3cr3t (by decide) (by decide),
        pairItems_withItem free _ mail alice hunter2 (by decide) (by decide), hP]
      rfl
    · simp only [freshWorld]
      rw [AddPassword_keyring free newestFirst Keyring.empty [] mail alice hunter2
        (by decide) (by decide) (by decide) rfl]
      simp only []
      rw [AddPassword_keyring free newestFirst _ _ mail alice s3cr3t
        (by decide) (by decide) (by decide) rfl]
      simp only []
      rw [pairItems_withItem free _ mail alice s3cr3t (by decide) (by decide),
        pairItems_withItem free _ mail alice hunter2 (by decide) (by decide), hP]
      rfl
    · rw [key free s3cr3t (by decide), one free]
  · intro free h
    have h1 := h s3cr3t (by decide) (by decide)
    have h2 := h swordfish (by decide) (by decide)
    rw [key free s3cr3t (by decide)] at h1
    rw [key free swordfish (by decide)] at h2
    have h3 : (s3cr3t, (none : Option KeytarError)) = (swordfish, none) := h1.symm.trans h2
    exact absurd h3 (by decide)

/-- C4, refuted as stated, on a keyring that already holds an item of the pair
and for every behaviour of the allocator: `AddPassword` and `DeletePassword`
return nil and `GetPassword` then returns a secret with a nil error, not
`ErrNotFound`: the former secret `hunter2` when the store lists the newest item
first (the new item is the one deleted), the secret read by the create request
when it lists the oldest first (the former item is the one deleted). -/
theorem AddPassword_DeletePassword_leaves_item :
    (∀ free : CBlock → CBlock,
      (AddPassword (gnomeKeyring free newestFirst) oneItemWorld mail alice s3cr3t).2 = none ∧
      (DeletePassword (gnomeKeyring free newestFirst)
        (AddPassword (gnomeKeyring free newestFirst) oneItemWorld mail alice s3cr3t).1
        mail alice).2 = none ∧
      (GetPassword (gnomeKeyring free newestFirst)
        (DeletePassword (gnomeKeyring free newestFirst)
          (AddPassword (gnomeKeyring free newestFirst) oneItemWorld mail alice s3cr3t).1
          mail alice).1 mail alice).2 = (hunter2, none)) ∧
    (∀ free : CBlock → CBlock,
      (AddPassword (gnomeKeyring free oldestFirst) oneItemWorld mail alice s3cr3t).2 = none ∧
      (DeletePassword (gnomeKeyring free oldestFirst)
        (AddPassword (gnomeKeyring free oldestFirst) oneItemWorld mail alice s3cr3t).1
        mail alice).2 = none ∧
      (GetPassword (gnomeKeyring free oldestFirst)
        (DeletePassword (gnomeKeyring free oldestFirst)
          (AddPassword (gnomeKeyring free oldestFirst) oneItemWorld mail alice s3cr3t).1
          mail alice).1 mail alice).2 = (cstr (free (C.CString s3cr3t)), none)) ∧
    (hunter2, (none : Option KeytarError)) ≠ ([], some ErrNotFound) := by
  have hP : oneItemWorld.store.pairItems mail alice = [hunterItem] := by decide
  have hitems : oneItemWorld.store.items = [hunterItem] := rfl
  refine ⟨?_, ?_, by decide⟩
  · intro free
    have hl : newestFirst ((oneItemWorld.store.pairItems mail alice ++
        [oneItemWorld.store.added free mail alice s3cr3t]).map oneItemWorld.store.toFound)
        = oneItemWorld.store.toFound (oneItemWorld.store.added free mail alice s3cr3t)
          :: [oneItemWorld.store.toFound hunterItem] := by
      rw [hP]; rfl
    have h := after_AddPassword_DeletePassword free newestFirst oneItemWorld.store []
      mail alice s3cr3t (oneItemWorld.store.added free mail alice s3cr3t) _ _
      (by decide) (by decide) (by decide) rfl hl (by simp [Keyring.withItem]) rfl
    have hstore : (oneItemWorld.store.withItem
        (oneItemWorld.store.added free mail alice s3cr3t)).withoutId
        (oneItemWorld.store.toFound (oneItemWorld.store.added free mail alice s3cr3t)).item_id
        = oneItemWorld.store :=
      withoutId_withItem_fresh oneItemWorld.store _ rfl
    rw [hstore, hP] at h
    refine ⟨?_, h.1, ?_⟩
    · show (AddPassword (gnomeKeyring free newestFirst) ⟨oneItemWorld.store, []⟩
        mail alice s3cr3t).2 = none
      rw [AddPassword_keyring free newestFirst oneItemWorld.store [] mail alice s3cr3t
        (by decide) (by decide) (by decide) rfl]
    · have h2 := h.2
      rw [show (match newestFirst (List.map oneItemWorld.store.toFound [hunterItem]) with
          | [] => (([] : GoStr), some ErrNotFound)
          | left :: _ => (cstr left.secret, none)) = (hunter2, none) from by decide] at h2
      exact h2
  · intro free
    have hl : oldestFirst ((oneItemWorld.store.pairItems mail alice ++
        [oneItemWorld.store.added free mail alice s3cr3t]).map oneItemWorld.store.toFound)
        = oneItemWorld.store.toFound hunterItem
          :: [oneItemWorld.store.toFound (oneItemWorld.store.added free mail alice s3cr3t)] := by
      rw [hP]; rfl
    have h := after_AddPassword_DeletePassword free oldestFirst oneItemWorld.store []
      mail alice s3cr3t hunterItem _ _
      (by decide) (by decide) (by decide) rfl hl (by simp [Keyring.withItem, hitems]) rfl
    have hleft : ((oneItemWorld.store.withItem
        (oneItemWorld.store.added free mail alice s3cr3t)).withoutId
        (oneItemWorld.store.toFound hunterItem).item_id).pairItems mail alice
        = [oneItemWorld.store.added free mail alice s3cr3t] := by
      have hin := pairItems_withItem free oneItemWorld.store mail alice s3cr3t
        (by decide) (by decide)
      rw [hP] at hin
      simp only [Keyring.pairItems, Keyring.withoutId, Keyring.withItem, hitems,
        List.filter_filter] at hin ⊢
      rfl
    rw [hleft] at h
    refine ⟨?_, h.1, ?_⟩
    · show (AddPassword (gnomeKeyring free oldestFirst) ⟨oneItemWorld.store, []⟩
        mail alice s3cr3t).2 = none
      rw [AddPassword_keyring free oldestFirst oneItemWorld.store [] mail alice s3cr3t
        (by decide) (by decide) (by decide) rfl]
    · refine Eq.trans h.2 ?_
      simp [oldestFirst, Keyring.toFound, Keyring.added, cstr_cstr_nul]

end Keytar
